import Mathlib

/-!
Verification of the TeamTalk downloader bot's download-orchestration state
machine (`tt_downloader_bot.py`): a shallow embedding of the orchestrator
state, the queue builders, the chat-command handler and the transfer-event
handler, together with theorems about the specified properties.

The external Session Client (the TeamTalk SDK wrapper) is modelled as a
pure environment `Env`; side effects (chat replies, console prints,
directory creation, transfer-start requests) are modelled as an explicit
output trace `Out`.
-/

namespace TTD

/-- A remote file as reported by the Session Client (`RemoteFile`):
`nChannelID`, `nFileID`, `szFileName`. -/
structure RFile where
  channelID : Int
  fileID : Int
  fileName : String
deriving DecidableEq, Repr

/-- A channel known to the server (`Channel`): `nChannelID`, `szName`,
`bPassword`. Used by the `auto_all` queue builder. -/
structure SChannel where
  channelID : Int
  name : String
  hasPassword : Bool
deriving DecidableEq, Repr

/-- One queued channel-download task. The Python code keeps these as dicts
`{"id": .., "path": .., "password": .., "requires_password": ..}`; a missing
`password` key and an empty string are both falsy in Python, so `password`
is a plain string with `""` for "unset", and `requires_password` defaults
to `false` where the builders do not set it. -/
structure Task where
  id : Int
  path : String
  password : String
  requiresPassword : Bool
deriving DecidableEq, Repr

/-- A configured `{path, password}` entry of `channels_to_download`. -/
structure ConfigEntry where
  path : String
  password : String
deriving DecidableEq, Repr

/-- Where a chat reply is delivered. -/
inductive Target where
  | user (uid : Int)
  | channel (cid : Int)
deriving DecidableEq, Repr

/-- The request origin stored by the orchestrator (`_request_origin` is the
Python string "private" or "channel"). -/
inductive Origin where
  | privateMsg
  | channelMsg
deriving DecidableEq, Repr

/-- The observable effects of the bot, in order of occurrence:
chat messages, console prints, directory creation (`os.makedirs`),
entry into `_start_downloads_for_channel`, channel-path resolution calls
(`getChannelIDFromPath`) and transfer-start requests (`doRecvFile`). -/
inductive Out where
  | chat (target : Target) (text : String)
  | console (text : String)
  | mkdir (dir : String)
  | startDownloads (channelId : Int) (path : String)
  | resolvePath (path : String)
  | recvFile (channelId fileId : Int) (localPath : String)
deriving DecidableEq, Repr

/-- Transfer status (`FileTransferStatus`): `FILETRANSFER_ACTIVE` is the
only non-terminal status the handler distinguishes. -/
inductive TStatus where
  | active
  | finished
  | error
  | closed
deriving DecidableEq, Repr

/-- A transfer-status event (`FileTransfer`): the fields the handler reads. -/
structure FT where
  channelID : Int
  remoteFileName : String
  status : TStatus
  transferred : Int
  fileSize : Int
deriving DecidableEq, Repr

/-- Text-message type (`TextMsgType`). -/
inductive MsgType where
  | user
  | channel
  | broadcast
deriving DecidableEq, Repr

/-- The numeric code of a `TextMsgType` value, as it prints. -/
def msgTypeCode : MsgType → Nat
  | .user => 1
  | .channel => 2
  | .broadcast => 3

/-- An inbound text message (`TextMessage`): the fields the handler reads. -/
structure TextMsg where
  msgType : MsgType
  fromUserId : Int
  toUserId : Int
  channelId : Int
  text : String
deriving DecidableEq, Repr

/-- The pure environment standing for the Session Client: channel-path
resolution, channel file listings, transfer starts (the returned handle),
channel paths, the server channel list and the bot's own user id. -/
structure Env where
  getChannelIDFromPath : String → Int
  getChannelFiles : Int → List RFile
  doRecvFile : Int → Int → Int
  getChannelPath : Int → String
  serverChannels : List SChannel
  myUserId : Int

/-- The orchestrator's state: the fields of `TTDownloaderBot` the download
state machine reads and writes. Python dicts become association lists,
sets become lists without duplicates by construction. -/
structure BotState where
  channelMode : String
  channelPath : String
  channelPassword : String
  outputDir : String
  channelsToDownload : List ConfigEntry
  channelId : Option Int
  expectedDownloads : List ((Int × String) × String)
  completedDownloads : List (Int × String)
  downloadsStarted : Bool
  downloadQueue : List Task
  currentChannelId : Option Int
  channelPaths : List (Int × String)
  channelPendingCounts : List (Int × Nat)
  channelCompletedCounts : List (Int × Nat)
  totalCompletedFiles : Nat
  notifyEvery : Nat
  requestUserId : Option Int
  requestChannelId : Option Int
  requestOrigin : Option Origin
  awaitingPasswordChannelId : Option Int
deriving DecidableEq, Repr

/-- The state `__init__` builds: empty campaign, `notify_every = 10`. -/
def initialBotState (channel_mode channel_path channel_password output_dir : String)
    (channels_to_download : List ConfigEntry) : BotState where
  channelMode := channel_mode
  channelPath := channel_path
  channelPassword := channel_password
  outputDir := output_dir
  channelsToDownload := channels_to_download
  channelId := none
  expectedDownloads := []
  completedDownloads := []
  downloadsStarted := false
  downloadQueue := []
  currentChannelId := none
  channelPaths := []
  channelPendingCounts := []
  channelCompletedCounts := []
  totalCompletedFiles := 0
  notifyEvery := 10
  requestUserId := none
  requestChannelId := none
  requestOrigin := none
  awaitingPasswordChannelId := none

/-! ### Association-list dictionaries and sets -/

/-- Dictionary lookup (`d.get(k)` / `d[k]`). -/
def alGet {κ α : Type} [DecidableEq κ] : List (κ × α) → κ → Option α
  | [], _ => none
  | (k', v') :: rest, k => if k' = k then some v' else alGet rest k

/-- Dictionary update (`d[k] = v`): replace the first binding or append. -/
def alSet {κ α : Type} [DecidableEq κ] : List (κ × α) → κ → α → List (κ × α)
  | [], k, v => [(k, v)]
  | (k', v') :: rest, k, v =>
    if k' = k then (k, v) :: rest else (k', v') :: alSet rest k v

/-- Set insertion (`s.add(k)`). -/
def setAdd {κ : Type} [DecidableEq κ] (l : List κ) (k : κ) : List κ :=
  if k ∈ l then l else l ++ [k]

/-! ### Python string helpers -/

/-- Python `str.strip()` whitespace (ASCII part; the messages the bot
compares against are ASCII). -/
def isPySpace (c : Char) : Bool :=
  c = ' ' || c = '\t' || c = '\n' || c = '\x0d' || c = '\x0b' || c = '\x0c'

/-- Python `s.strip()`: drop leading and trailing whitespace. -/
def pyStrip (s : String) : String :=
  ⟨((s.data.dropWhile isPySpace).reverse.dropWhile isPySpace).reverse⟩

/-- Python `s.rstrip(". ")`: drop trailing dots and spaces. -/
def pyRstripDotSpace (s : String) : String :=
  ⟨(s.data.reverse.dropWhile (fun c => c = '.' || c = ' ')).reverse⟩

/-- Python `s.lower()` (ASCII case folding; the trigger phrase and skip
synonyms are ASCII). -/
def pyLower (s : String) : String :=
  ⟨s.data.map (fun c =>
    if 'A' ≤ c ∧ c ≤ 'Z' then Char.ofNat (c.toNat + 32) else c)⟩

/-- The `cleaned` value of `sanitize_for_fs` before its final fallback:
remove Windows-invalid filename characters, strip whitespace, strip
trailing dots and spaces. -/
def sanitizeCleaned (name : String) : String :=
  let invalid : List Char := "<>:\"/\\|?*".data
  pyRstripDotSpace (pyStrip ⟨name.data.filter (fun c => ¬ invalid.contains c)⟩)

/-- `sanitize_for_fs`: the cleaned name, falling back to the literal
`"channel"` when it is empty (`return cleaned or "channel"`). -/
def sanitize_for_fs (name : String) : String :=
  let cleaned := sanitizeCleaned name
  if cleaned = "" then "channel" else cleaned

/-- The local folder name `_start_downloads_for_channel` uses:
`sanitize_for_fs(channel_path or f"channel_{channel_id}")`. -/
def folderNameFor (channel_path : String) (channel_id : Int) : String :=
  sanitize_for_fs
    (if channel_path = "" then "channel_" ++ toString channel_id else channel_path)

/-- `_safe_channel_path`: the resolved path or a synthetic name. -/
def safeChannelPath (env : Env) (chan_id : Int) : String :=
  let path := env.getChannelPath chan_id
  if path = "" then "channel_" ++ toString chan_id else path

/-! ### Reply sink -/

/-- `_send_to_request_target`: deliver to the stored origin; no-op when no
origin (or the matching id) is recorded. -/
def sendToRequestTarget (s : BotState) (text : String) : List Out :=
  if s.requestOrigin = some Origin.privateMsg then
    match s.requestUserId with
    | some uid => [Out.chat (Target.user uid) text]
    | none => []
  else if s.requestOrigin = some Origin.channelMsg then
    match s.requestChannelId with
    | some cid => [Out.chat (Target.channel cid) text]
    | none => []
  else []

/-! ### Starting a channel's downloads (`_start_downloads_for_channel`) -/

/-- The accumulator of the per-file loop of `_start_downloads_for_channel`:
the expected mapping, the completed set, the count of successful starts
and the emitted effects. -/
structure FilesAcc where
  expected : List ((Int × String) × String)
  completed : List (Int × String)
  started : Nat
  outs : List Out
deriving DecidableEq, Repr

/-- The per-file loop of `_start_downloads_for_channel`: for each remote
file record the expected `key → local_path` mapping and request a transfer
start; a failed start (non-positive handle) is added to the completed set
immediately. -/
def processFiles (env : Env) (target_dir : String) : List RFile → FilesAcc → FilesAcc
  | [], acc => acc
  | rf :: rest, acc =>
    let filename := if rf.fileName = "" then "file_" ++ toString rf.fileID else rf.fileName
    let local_path := target_dir ++ "/" ++ filename
    let key := (rf.channelID, filename)
    let acc1 : FilesAcc :=
      { acc with
        expected := alSet acc.expected key local_path
        outs := acc.outs ++
          [Out.console ("Starting download: " ++ filename ++ " -> " ++ local_path),
           Out.recvFile rf.channelID rf.fileID local_path] }
    if 0 < env.doRecvFile rf.channelID rf.fileID then
      processFiles env target_dir rest { acc1 with started := acc1.started + 1 }
    else
      processFiles env target_dir rest
        { acc1 with
          completed := setAdd acc1.completed key
          outs := acc1.outs ++
            [Out.console ("  Failed to start download for file: " ++ filename)] }

/-- The body of `_start_downloads_for_channel` up to (but not including)
its recursive advance: the returned flag is `true` exactly when the source
falls through to `_start_next_channel_download` (no files, or zero
transfers started). -/
def startFilesForChannel (env : Env) (s : BotState) (channel_id : Int)
    (channel_path : String) : BotState × List Out × Bool :=
  let folder_name := folderNameFor channel_path channel_id
  let target_dir := s.outputDir ++ "/" ++ folder_name
  let out0 := [Out.startDownloads channel_id channel_path, Out.mkdir target_dir]
  match env.getChannelFiles channel_id with
  | [] =>
    ({ s with
        channelPendingCounts := alSet s.channelPendingCounts channel_id 0
        channelCompletedCounts := alSet s.channelCompletedCounts channel_id 0 },
     out0 ++ [Out.console ("Channel '" ++ channel_path ++ "' contains no files.")]
          ++ sendToRequestTarget s
               ("Channel '" ++ channel_path ++ "' contains no files. Moving on."),
     true)
  | f :: fs =>
    let acc := processFiles env target_dir (f :: fs)
      ⟨s.expectedDownloads, s.completedDownloads, 0, []⟩
    let s1 : BotState :=
      { s with
        expectedDownloads := acc.expected
        completedDownloads := acc.completed
        channelPendingCounts := alSet s.channelPendingCounts channel_id acc.started
        channelCompletedCounts := alSet s.channelCompletedCounts channel_id 0 }
    let outs := out0 ++
      [Out.console ("Found " ++ toString (f :: fs).length ++ " file(s) in channel '"
        ++ channel_path ++ "'.")] ++ acc.outs
    if acc.started = 0 then
      (s1, outs ++ sendToRequestTarget s1
        ("Failed to start transfers for channel '" ++ channel_path ++ "'. Moving on."),
       true)
    else (s1, outs, false)

/-- `_start_next_channel_download`, with the queue as the explicit
recursion subject (the caller passes `s.downloadQueue`, and
`startFilesForChannel` never touches the queue, so the list argument is
always the state's queue). Pops the head task; an empty queue ends the
campaign (final summary only if one had started); a password-required
`auto_all` task with no stored password suspends the campaign; otherwise
the popped channel's downloads are started, and the loop continues when
the start routine falls through. -/
def advanceLoop (env : Env) : List Task → BotState → BotState × List Out
  | [], s =>
    let out := if s.downloadsStarted then
        sendToRequestTarget s
          ("Finished downloading from all channels. Total files downloaded: "
            ++ toString s.totalCompletedFiles ++ ".")
      else []
    ({ s with downloadsStarted := false, currentChannelId := none,
              awaitingPasswordChannelId := none }, out)
  | task :: rest, s =>
    let chan_id := task.id
    let path := task.path
    let s1 : BotState := { s with downloadQueue := rest, currentChannelId := some chan_id }
    if s1.channelMode = "auto_all" ∧ task.requiresPassword = true ∧ task.password = "" then
      ({ s1 with awaitingPasswordChannelId := some chan_id },
       sendToRequestTarget s1
         ("Channel '" ++ path ++ "' likely requires a password. Reply with the password only, or type 'skip' to skip this channel."))
    else
      let out1 := sendToRequestTarget s1 ("Downloading files from channel '" ++ path ++ "'.")
      let r := startFilesForChannel env s1 chan_id path
      if r.2.2 then
        let r2 := advanceLoop env rest r.1
        (r2.1, out1 ++ r.2.1 ++ r2.2)
      else (r.1, out1 ++ r.2.1)

/-- `_start_next_channel_download` on the state's own queue. -/
def startNextChannelDownload (env : Env) (s : BotState) : BotState × List Out :=
  advanceLoop env s.downloadQueue s

/-- `_start_downloads_for_channel` as the source defines it: set up the
channel's transfers, then advance when the start routine falls through. -/
def startDownloadsForChannel (env : Env) (s : BotState) (channel_id : Int)
    (channel_path : String) : BotState × List Out :=
  let r := startFilesForChannel env s channel_id channel_path
  if r.2.2 then
    let r2 := startNextChannelDownload env r.1
    (r2.1, r.2.1 ++ r2.2)
  else (r.1, r.2.1)

/-! ### Transfer events (`onFileTransfer`) -/

/-- The counter updates of a counted terminal completion (source lines
313-315): add the key to the completed set, bump the global total and the
event channel's completed count. -/
def recordCompletion (s : BotState) (key : Int × String) : BotState :=
  { s with
    completedDownloads := setAdd s.completedDownloads key
    totalCompletedFiles := s.totalCompletedFiles + 1
    channelCompletedCounts :=
      alSet s.channelCompletedCounts key.1
        (((alGet s.channelCompletedCounts key.1).getD 0) + 1) }

/-- The running-total notification text. -/
def runningTotalMsg (n : Nat) : String :=
  "Downloaded a total of " ++ toString n ++ " files..."

/-- `onFileTransfer`: drop events for unexpected keys; an active status is
a console-only progress signal; a terminal status for an already-completed
key is a no-op; otherwise count the completion, notify every
`notify_every`-th global completion, and when the channel's completed
count has reached its pending count announce the channel's completion and
— only if it is still the current channel — advance. -/
def onFileTransfer (env : Env) (s : BotState) (ft : FT) : BotState × List Out :=
  let key := (ft.channelID, ft.remoteFileName)
  match alGet s.expectedDownloads key with
  | none => (s, [])
  | some local_path =>
    let filename := ft.remoteFileName
    let chan_id := ft.channelID
    if ft.status = TStatus.active then
      (s, [Out.console ("Downloading " ++ filename ++ ": " ++ toString ft.transferred
        ++ "/" ++ toString ft.fileSize ++ " bytes")])
    else if key ∈ s.completedDownloads then (s, [])
    else
      let outC : List Out :=
        if ft.status = TStatus.finished then
          [Out.console ("Download finished: " ++ filename ++ " -> " ++ local_path)]
        else if ft.status = TStatus.error then
          [Out.console ("Error while downloading file: " ++ filename)]
        else [Out.console ("Transfer closed: " ++ filename)]
      let s1 := recordCompletion s key
      let out1 := if s1.totalCompletedFiles % s1.notifyEvery = 0 then
          sendToRequestTarget s1 (runningTotalMsg s1.totalCompletedFiles)
        else []
      match alGet s1.channelPendingCounts chan_id, alGet s1.channelCompletedCounts chan_id with
      | some pending, some completed =>
        if pending ≤ completed then
          let chan_path := (alGet s1.channelPaths chan_id).getD
            ("channel_" ++ toString chan_id)
          let out2 := sendToRequestTarget s1
            ("Finished downloading files from channel '" ++ chan_path ++ "'.")
          if s1.currentChannelId = some chan_id then
            let r := startNextChannelDownload env s1
            (r.1, outC ++ out1 ++ out2 ++ r.2)
          else (s1, outC ++ out1 ++ out2)
        else (s1, outC ++ out1)
      | _, _ => (s1, outC ++ out1)

/-- Fold a sequence of transfer events through `onFileTransfer`,
keeping the state. -/
def processEvents (env : Env) (s : BotState) : List FT → BotState
  | [] => s
  | e :: rest => processEvents env (onFileTransfer env s e).1 rest

/-! ### Queue builders (`_prepare_manual_queue`, `_prepare_auto_queue`) -/

/-- The `manual_list` loop of `_prepare_manual_queue`: entries with an
empty (stripped) path are skipped silently; an unresolvable path is
logged, reported to the request origin and dropped; a resolved entry is
appended to the queue. -/
def manualLoop (env : Env) (s : BotState) : List ConfigEntry → BotState × List Out
  | [] => (s, [])
  | ch :: rest =>
    let path := pyStrip ch.path
    if path = "" then manualLoop env s rest
    else
      let chan_id := env.getChannelIDFromPath path
      if chan_id ≤ 0 then
        let msg := "Channel not found for path: " ++ path
        let out := [Out.resolvePath path, Out.console msg] ++ sendToRequestTarget s msg
        let r := manualLoop env s rest
        (r.1, out ++ r.2)
      else
        let s1 : BotState :=
          { s with
            channelPaths := alSet s.channelPaths chan_id path
            downloadQueue := s.downloadQueue ++
              [⟨chan_id, path, ch.password, false⟩] }
        let r := manualLoop env s1 rest
        (r.1, Out.resolvePath path :: r.2)

/-- `_prepare_manual_queue`: reset the queue; `single` mode queues the base
channel (failing closed on an unresolvable id); otherwise run the
`manual_list` loop over the configured entries. -/
def prepareManualQueue (env : Env) (s : BotState) : BotState × List Out :=
  let s : BotState := { s with downloadQueue := [] }
  if s.channelMode = "single" then
    let r : Int × List Out :=
      match s.channelId with
      | some c =>
        if c ≠ 0 then (c, [])
        else (env.getChannelIDFromPath s.channelPath, [Out.resolvePath s.channelPath])
      | none => (env.getChannelIDFromPath s.channelPath, [Out.resolvePath s.channelPath])
    let chan_id := r.1
    if chan_id ≤ 0 then (s, r.2)
    else
      let path := if s.channelPath ≠ "" then s.channelPath else safeChannelPath env chan_id
      ({ s with
          channelPaths := alSet s.channelPaths chan_id path
          downloadQueue := [⟨chan_id, path, s.channelPassword, false⟩] }, r.2)
  else manualLoop env s s.channelsToDownload

/-- The loop of `_prepare_auto_queue` over the server's channel list. -/
def autoLoop (env : Env) (s : BotState) : List SChannel → BotState
  | [] => s
  | ch :: rest =>
    if ch.channelID ≤ 0 then autoLoop env s rest
    else
      let path :=
        if env.getChannelPath ch.channelID ≠ "" then env.getChannelPath ch.channelID
        else if ch.name ≠ "" then ch.name
        else "channel_" ++ toString ch.channelID
      autoLoop env
        { s with
          channelPaths := alSet s.channelPaths ch.channelID path
          downloadQueue := s.downloadQueue ++ [⟨ch.channelID, path, "", ch.hasPassword⟩] }
        rest

/-- `_prepare_auto_queue`: reset the queue and enumerate every server
channel with a positive id; no password is pre-filled. -/
def prepareAutoQueue (env : Env) (s : BotState) : BotState × List Out :=
  (autoLoop env { s with downloadQueue := [] } env.serverChannels, [])

/-! ### The chat-command handler (`onCmdUserTextMessage`) -/

/-- The message is private and addressed to the bot (source lines 196-199). -/
def originPrivateB (env : Env) (m : TextMsg) : Bool :=
  m.msgType = MsgType.user ∧ m.toUserId = env.myUserId

/-- The message is a channel broadcast (source lines 200-203). -/
def originChannelB (m : TextMsg) : Bool :=
  m.msgType = MsgType.channel ∧ m.channelId ≠ 0

/-- The console print at the top of `onCmdUserTextMessage`. -/
def receivedConsole (m : TextMsg) : Out :=
  Out.console ("Received text message: type=" ++ toString (msgTypeCode m.msgType)
    ++ ", from=" ++ toString m.fromUserId ++ ", to=" ++ toString m.toUserId
    ++ ", channel=" ++ toString m.channelId ++ ", content='" ++ m.text ++ "'")

/-- The accepted-trigger tail of `onCmdUserTextMessage` (source lines
249-283), entered with the request origin already stored on `s`: reject
when a campaign is running or the bot has not joined its base channel,
otherwise reset all campaign state, build the queue by mode, and either
report an empty queue or announce the campaign and advance. -/
def triggerBody (env : Env) (s : BotState) (out0 : List Out) : BotState × List Out :=
  if s.downloadsStarted = true ∨ s.downloadQueue ≠ [] then
    (s, out0 ++ sendToRequestTarget s "Downloads are already running.")
  else if s.channelId = none then
    (s, out0 ++ sendToRequestTarget s "I'm not in a channel yet. Please try again in a moment.")
  else
    let s1 : BotState :=
      { s with
        expectedDownloads := []
        completedDownloads := []
        channelPaths := []
        channelPendingCounts := []
        channelCompletedCounts := []
        totalCompletedFiles := 0
        downloadQueue := [] }
    let rq : BotState × List Out :=
      if s1.channelMode = "manual_list" ∨ s1.channelMode = "single" then
        prepareManualQueue env s1
      else if s1.channelMode = "auto_all" then prepareAutoQueue env s1
      else prepareManualQueue env s1
    let s2 := rq.1
    match s2.downloadQueue with
    | [] => (s2, out0 ++ rq.2 ++ sendToRequestTarget s2 "No channels configured for download.")
    | first :: restq =>
      let s3 : BotState := { s2 with downloadsStarted := true }
      let out1 := sendToRequestTarget s3
        ("Starting downloads from " ++ toString (first :: restq).length
          ++ " channel(s). First up: '" ++ first.path ++ "'.")
      let r := startNextChannelDownload env s3
      (r.1, out0 ++ rq.2 ++ out1 ++ r.2)

/-- `onCmdUserTextMessage`: ignore own messages; while awaiting a channel
password, filter replies by the stored request origin, treat a skip
synonym as a skip and any other text as the supplied password (stored on
every queued task with the matching id) and start the channel's downloads;
otherwise recognize the trigger phrase, store the request origin and run
the trigger body. -/
def onCmdUserTextMessage (env : Env) (s : BotState) (m : TextMsg) : BotState × List Out :=
  let out0 := [receivedConsole m]
  let content_raw := m.text
  let content := pyLower (pyStrip content_raw)
  if m.fromUserId = env.myUserId then (s, out0)
  else
    match s.awaitingPasswordChannelId with
    | some chan_id =>
      let chan_path := (alGet s.channelPaths chan_id).getD ("channel_" ++ toString chan_id)
      if s.requestOrigin = some Origin.privateMsg ∧
          ¬(originPrivateB env m = true ∧ some m.fromUserId = s.requestUserId) then
        (s, out0)
      else if s.requestOrigin = some Origin.channelMsg ∧
          ¬(originChannelB m = true ∧ some m.channelId = s.requestChannelId) then
        (s, out0)
      else if content = "skip" ∨ content = "next" ∨ content = "" then
        let out1 := sendToRequestTarget s
          ("Skipping channel '" ++ chan_path ++ "' (no password provided).")
        let r := startNextChannelDownload env { s with awaitingPasswordChannelId := none }
        (r.1, out0 ++ out1 ++ r.2)
      else
        let s1 : BotState :=
          { s with downloadQueue := s.downloadQueue.map (fun t =>
              if t.id = chan_id then { t with password := pyStrip content_raw } else t) }
        let out1 := sendToRequestTarget s1
          ("Password saved for channel '" ++ chan_path ++ "'.")
        let r := startDownloadsForChannel env
          { s1 with awaitingPasswordChannelId := none } chan_id chan_path
        (r.1, out0 ++ out1 ++ r.2)
    | none =>
      if content ≠ "download files" then (s, out0)
      else if originPrivateB env m then
        triggerBody env
          { s with requestOrigin := some Origin.privateMsg,
                   requestUserId := some m.fromUserId, requestChannelId := none } out0
      else if originChannelB m then
        triggerBody env
          { s with requestOrigin := some Origin.channelMsg,
                   requestUserId := none, requestChannelId := some m.channelId } out0
      else (s, out0)

/-! ### Observations and invariants used by the claims -/

/-- The channels for which `_start_downloads_for_channel` was entered, in
trace order. -/
def startedChannels (out : List Out) : List Int :=
  out.filterMap (fun o => match o with | Out.startDownloads c _ => some c | _ => none)

/-- The chat messages of a trace, in order. -/
def chatTexts (out : List Out) : List String :=
  out.filterMap (fun o => match o with | Out.chat _ t => some t | _ => none)

/-- The number of transfer-start attempts (`doRecvFile` calls) in a trace. -/
def recvAttempts (out : List Out) : Nat :=
  out.countP (fun o => match o with | Out.recvFile _ _ _ => true | _ => false)

/-- Whether a trace element is a chat message. -/
def isChatOut : Out → Bool
  | Out.chat _ _ => true
  | _ => false

/-- Whether a trace element marks entry into `_start_downloads_for_channel`. -/
def isStartOut : Out → Bool
  | Out.startDownloads _ _ => true
  | _ => false

/-- Where `_send_to_request_target` would currently deliver, if anywhere. -/
def replyTarget (s : BotState) : Option Target :=
  if s.requestOrigin = some Origin.privateMsg then s.requestUserId.map Target.user
  else if s.requestOrigin = some Origin.channelMsg then s.requestChannelId.map Target.channel
  else none

/-- The Session Client's contract: a channel's file listing reports that
channel's id on every file (spec section 6). -/
def EnvWF (env : Env) : Prop :=
  ∀ c : Int, ∀ rf ∈ env.getChannelFiles c, rf.channelID = c

/-- The number of distinct expected transfer keys of channel `c` not yet
completed. -/
def slackOf (exp : List ((Int × String) × String)) (comp : List (Int × String))
    (c : Int) : Nat :=
  ((exp.map Prod.fst).toFinset.filter (fun k => k.1 = c ∧ k ∉ comp)).card

/-- `slackOf` on the orchestrator's state. -/
def slack (s : BotState) (c : Int) : Nat :=
  slackOf s.expectedDownloads s.completedDownloads c

/-- The per-channel counter invariant: once a channel's pending count is
set, its completed count exists and, together with the channel's
uncompleted expected keys, never exceeds it. -/
def InvCounts (s : BotState) : Prop :=
  ∀ c p, alGet s.channelPendingCounts c = some p →
    ∃ m, alGet s.channelCompletedCounts c = some m ∧ m + slack s c ≤ p

/-- No channel has uncompleted expected keys. -/
def AllSlackZero (s : BotState) : Prop := ∀ c, slack s c = 0

/-- The system invariant preserved by transfer events: the counter
invariant, and uncompleted expected keys only for the current channel. -/
def SysInv (s : BotState) : Prop :=
  InvCounts s ∧ ∀ c, 0 < slack s c → s.currentChannelId = some c

/-- The queue entries a manual_list configuration resolves, in order. -/
def resolvedTasks (env : Env) (entries : List ConfigEntry) : List Task :=
  entries.filterMap (fun ch =>
    let path := pyStrip ch.path
    if path = "" then none
    else if env.getChannelIDFromPath path ≤ 0 then none
    else some ⟨env.getChannelIDFromPath path, path, ch.password, false⟩)

/-- The non-empty paths of a manual_list configuration that fail to
resolve, in order. -/
def unresolvedPaths (env : Env) (entries : List ConfigEntry) : List String :=
  entries.filterMap (fun ch =>
    let path := pyStrip ch.path
    if path = "" then none
    else if env.getChannelIDFromPath path ≤ 0 then some path else none)

/-- The number of files of a listing whose transfer start succeeds
(positive `doRecvFile` handle). -/
def succStarts (env : Env) (files : List RFile) : Nat :=
  (files.filter (fun rf => 0 < env.doRecvFile rf.channelID rf.fileID)).length

/-! ### Concrete inputs for counterexamples and witnesses -/

/-- A trivial environment: nothing resolves, no channel has files. -/
def envA : Env := ⟨fun _ => 0, fun _ => [], fun _ _ => 0, fun _ => "", [], 99⟩

/-- A mid-campaign state: downloads running, request origin private user 1. -/
def stC1 : BotState :=
  { initialBotState "single" "/Root" "" "out" [] with
    downloadsStarted := true, requestOrigin := some Origin.privateMsg,
    requestUserId := some 1 }

/-- A second user's private trigger message. -/
def msgC1 : TextMsg := ⟨MsgType.user, 2, 99, 0, "download files"⟩

/-- Channel 1 holds one file; transfer starts fail. -/
def envC2 : Env :=
  ⟨fun _ => 0, fun c => if c = 1 then [⟨1, 5, "a"⟩] else [], fun _ _ => 0,
   fun _ => "", [], 99⟩

/-- Channel 1 holds one file; transfer starts succeed. -/
def envC2w : Env :=
  ⟨fun _ => 0, fun c => if c = 1 then [⟨1, 5, "a"⟩] else [], fun _ _ => 3,
   fun _ => "", [], 99⟩

/-- A fresh state about to process channel 1. -/
def stC2 : BotState :=
  { initialBotState "manual_list" "/R" "" "out" [] with
    currentChannelId := some 1, requestOrigin := some Origin.privateMsg,
    requestUserId := some 7 }

/-- The terminal event for channel 1's file. -/
def ftC2 : FT := ⟨1, "a", TStatus.finished, 0, 0⟩

/-- A state whose only expected key is already completed. -/
def stC3 : BotState :=
  { initialBotState "single" "/R" "" "out" [] with
    expectedDownloads := [((1, "f"), "out/f")], completedDownloads := [(1, "f")] }

/-- A duplicate terminal event for the completed key. -/
def ftC3 : FT := ⟨1, "f", TStatus.error, 0, 0⟩

/-- A running campaign whose queue holds the same channel id twice. -/
def stC4 : BotState :=
  { initialBotState "manual_list" "/R" "" "out" [] with
    downloadQueue := [⟨1, "a", "", false⟩, ⟨1, "a", "", false⟩],
    downloadsStarted := true, requestOrigin := some Origin.privateMsg,
    requestUserId := some 1 }

/-- A running campaign with two distinct queued channels. -/
def stC4w : BotState :=
  { initialBotState "manual_list" "/R" "" "out" [] with
    downloadQueue := [⟨1, "a", "", false⟩, ⟨2, "b", "", false⟩],
    downloadsStarted := true, requestOrigin := some Origin.privateMsg,
    requestUserId := some 1 }

/-- A campaign awaiting the password of channel 5, whose task was already
popped from the queue. -/
def stC5 : BotState :=
  { initialBotState "auto_all" "/R" "" "out" [] with
    awaitingPasswordChannelId := some 5, channelPaths := [(5, "Secret")],
    downloadsStarted := true, currentChannelId := some 5,
    requestOrigin := some Origin.privateMsg, requestUserId := some 1 }

/-- The password reply from the request origin. -/
def msgC5 : TextMsg := ⟨MsgType.user, 1, 99, 0, "hunter2"⟩

/-- Nine files already completed; one more key of channel 3 expected. -/
def stC6 : BotState :=
  { initialBotState "manual_list" "/R" "" "out" [] with
    expectedDownloads := [((3, "g"), "out/g")], totalCompletedFiles := 9,
    channelPendingCounts := [(3, 5)], channelCompletedCounts := [(3, 0)],
    currentChannelId := some 3, downloadsStarted := true,
    requestOrigin := some Origin.privateMsg, requestUserId := some 4 }

/-- The terminal event for channel 3's remaining file. -/
def ftC6 : FT := ⟨3, "g", TStatus.closed, 0, 0⟩

/-- A stale in-flight transfer of channel 2 while the orchestrator has
moved on to channel 9. -/
def stC7 : BotState :=
  { initialBotState "manual_list" "/R" "" "out" [] with
    expectedDownloads := [((2, "f"), "out/f")], channelPendingCounts := [(2, 1)],
    channelCompletedCounts := [(2, 0)], channelPaths := [(2, "Ch")],
    currentChannelId := some 9, downloadsStarted := true,
    requestOrigin := some Origin.privateMsg, requestUserId := some 1 }

/-- The late terminal event of the abandoned channel 2. -/
def ftC7 : FT := ⟨2, "f", TStatus.finished, 0, 0⟩

/-- Resolves `/good` to channel 8 and nothing else. -/
def envC8 : Env :=
  ⟨fun p => if p = "/good" then 8 else 0, fun _ => [], fun _ _ => 0,
   fun _ => "", [], 99⟩

/-- A manual_list configuration with one resolvable and one unresolvable
entry. -/
def stC8 : BotState :=
  { initialBotState "manual_list" "/R" "" "out" [⟨"/good", "pw"⟩, ⟨"/bad", ""⟩] with
    requestOrigin := some Origin.privateMsg, requestUserId := some 2 }

/-- A manual_list configuration whose middle entry has a whitespace-only
path. -/
def stC10 : BotState :=
  { initialBotState "manual_list" "/R" "" "out" [] with
    requestOrigin := some Origin.privateMsg, requestUserId := some 2 }

/-! ## Lemmas about the dictionary and set operations -/

theorem alGet_alSet_self {κ α : Type} [DecidableEq κ] (l : List (κ × α)) (k : κ) (v : α) :
    alGet (alSet l k v) k = some v := by
  induction l with
  | nil => simp [alSet, alGet]
  | cons h t ih =>
    obtain ⟨a, b⟩ := h
    by_cases hk : a = k <;> simp [alSet, alGet, hk, ih]

theorem alGet_alSet_ne {κ α : Type} [DecidableEq κ] (l : List (κ × α)) (k k' : κ) (v : α)
    (h : k' ≠ k) : alGet (alSet l k v) k' = alGet l k' := by
  have hk' : k ≠ k' := fun he => h he.symm
  induction l with
  | nil => simp [alSet, alGet, hk']
  | cons hd t ih =>
    obtain ⟨a, b⟩ := hd
    by_cases hak : a = k
    · subst hak
      simp [alSet, alGet, hk']
    · simp only [alSet, if_neg hak, alGet]
      by_cases hak' : a = k' <;> simp [hak', ih]

theorem keys_alSet {κ α : Type} [DecidableEq κ] (l : List (κ × α)) (k : κ) (v : α) :
    ((alSet l k v).map Prod.fst).toFinset = insert k ((l.map Prod.fst).toFinset) := by
  induction l with
  | nil => simp [alSet]
  | cons hd t ih =>
    obtain ⟨a, b⟩ := hd
    by_cases hk : a = k
    · subst hk; simp [alSet]
    · simp [alSet, hk, ih, Finset.Insert.comm]

theorem mem_setAdd {κ : Type} [DecidableEq κ] (l : List κ) (a b : κ) :
    b ∈ setAdd l a ↔ b ∈ l ∨ b = a := by
  by_cases h : a ∈ l
  · simp only [setAdd, if_pos h]
    constructor
    · exact Or.inl
    · rintro (hb | rfl)
      · exact hb
      · exact h
  · simp [setAdd, h]

theorem mem_keys_of_alGet {κ α : Type} [DecidableEq κ] (l : List (κ × α)) (k : κ) (v : α)
    (h : alGet l k = some v) : k ∈ l.map Prod.fst := by
  induction l with
  | nil => simp [alGet] at h
  | cons hd t ih =>
    obtain ⟨a, b⟩ := hd
    by_cases hk : a = k
    · subst hk; simp
    · simp only [alGet, if_neg hk] at h
      simpa using Or.inr (ih h)

/-! ## Lemmas about slack -/

theorem slackOf_alSet_ne (exp : List ((Int × String) × String))
    (comp : List (Int × String)) (key : Int × String) (lp : String) (c : Int)
    (hc : c ≠ key.1) : slackOf (alSet exp key lp) comp c = slackOf exp comp c := by
  unfold slackOf
  rw [keys_alSet, Finset.filter_insert, if_neg (fun h => hc h.1.symm)]

theorem slackOf_alSet_le (exp : List ((Int × String) × String))
    (comp : List (Int × String)) (key : Int × String) (lp : String) (c : Int) :
    slackOf (alSet exp key lp) comp c ≤ slackOf exp comp c + 1 := by
  unfold slackOf
  rw [keys_alSet, Finset.filter_insert]
  split
  · exact Finset.card_insert_le _ _
  · exact Nat.le_succ _

theorem slackOf_setAdd_imp (exp : List ((Int × String) × String))
    (comp : List (Int × String)) (key : Int × String) (c : Int) :
    slackOf exp (setAdd comp key) c ≤ slackOf exp comp c := by
  unfold slackOf
  apply Finset.card_le_card
  apply Finset.monotone_filter_right
  intro x hx
  refine ⟨hx.1, fun hm => hx.2 ?_⟩
  rw [mem_setAdd]
  exact Or.inl hm

theorem slackOf_setAdd_ne (exp : List ((Int × String) × String))
    (comp : List (Int × String)) (key : Int × String) (c : Int) (hc : c ≠ key.1) :
    slackOf exp (setAdd comp key) c = slackOf exp comp c := by
  unfold slackOf
  congr 1
  apply Finset.filter_congr
  intro x _
  simp only [mem_setAdd]
  constructor
  · rintro ⟨h1, h2⟩
    exact ⟨h1, fun hm => h2 (Or.inl hm)⟩
  · rintro ⟨h1, h2⟩
    refine ⟨h1, fun hm => ?_⟩
    rcases hm with hm | rfl
    · exact h2 hm
    · exact hc h1.symm

theorem slackOf_setAdd_self (exp : List ((Int × String) × String))
    (comp : List (Int × String)) (key : Int × String)
    (hin : key ∈ (exp.map Prod.fst).toFinset) (hnot : key ∉ comp) :
    slackOf exp (setAdd comp key) key.1 + 1 = slackOf exp comp key.1 := by
  unfold slackOf
  have hmem : key ∈ ((exp.map Prod.fst).toFinset.filter
      (fun k => k.1 = key.1 ∧ k ∉ comp)) := by
    simp only [Finset.mem_filter]
    exact ⟨hin, trivial, hnot⟩
  have heq : ((exp.map Prod.fst).toFinset.filter
        (fun k => k.1 = key.1 ∧ k ∉ setAdd comp key)) =
      ((exp.map Prod.fst).toFinset.filter
        (fun k => k.1 = key.1 ∧ k ∉ comp)).erase key := by
    ext x
    simp only [Finset.mem_filter, Finset.mem_erase, mem_setAdd]
    constructor
    · rintro ⟨h1, h2, h3⟩
      exact ⟨fun he => h3 (Or.inr he), h1, h2, fun hm => h3 (Or.inl hm)⟩
    · rintro ⟨hne, h1, h2, h3⟩
      refine ⟨h1, h2, fun hm => ?_⟩
      rcases hm with hm | hm
      · exact h3 hm
      · exact hne hm
  rw [heq, Finset.card_erase_of_mem hmem]
  exact Nat.succ_pred_eq_of_pos (Finset.card_pos.mpr ⟨key, hmem⟩)

/-! ## C3 -/

/-- C3: for every transfer key already recorded as completed, any further
terminal transfer event (finished, error or closed) for the same key is a
no-op: the state is unchanged, no counter moves, and nothing is emitted. -/
theorem c3_duplicate_terminal_noop (env : Env) (s : BotState) (ft : FT) (lp : String)
    (hexp : alGet s.expectedDownloads (ft.channelID, ft.remoteFileName) = some lp)
    (hdone : (ft.channelID, ft.remoteFileName) ∈ s.completedDownloads)
    (hterm : ft.status = TStatus.finished ∨ ft.status = TStatus.error ∨
      ft.status = TStatus.closed) :
    onFileTransfer env s ft = (s, []) := by
  have hna : ¬ ft.status = TStatus.active := by
    rcases hterm with h | h | h <;> simp [h]
  simp [onFileTransfer, hexp, hna, hdone]

/-- C3 witness: the no-op at a concrete already-completed key. -/
theorem c3_witness :
    alGet stC3.expectedDownloads (ftC3.channelID, ftC3.remoteFileName) = some "out/f" ∧
    (ftC3.channelID, ftC3.remoteFileName) ∈ stC3.completedDownloads ∧
    onFileTransfer envA stC3 ftC3 = (stC3, []) :=
  ⟨by decide, by decide,
   c3_duplicate_terminal_noop envA stC3 ftC3 "out/f" (by decide) (by decide)
     (Or.inr (Or.inl rfl))⟩

/-! ## C9 -/

/-- C9 counterexample: the path `"..."` is non-empty and sanitizes to the
empty string, but the folder name is the literal `"channel"`, not the
synthetic `channel_<id>` name the claim requires. -/
theorem c9_counterexample :
    ("..." : String) ≠ "" ∧ sanitizeCleaned "..." = "" ∧
    folderNameFor "..." 7 = "channel" ∧
    folderNameFor "..." 7 ≠ "channel_" ++ toString (7 : Int) := by
  refine ⟨by decide, by decide, by decide, by decide⟩

/-- C9 amended: the folder name equals `sanitize_for_fs` of the channel
path when the path is non-empty; when the cleaned path is empty the
fallback is the literal `"channel"`; the synthetic `channel_<id>` name is
used (as sanitizer input) only when the channel path itself is empty. -/
theorem c9_folder_name_amended (p : String) (cid : Int) (hp : p ≠ "") :
    folderNameFor p cid = sanitize_for_fs p ∧
    (sanitizeCleaned p = "" → folderNameFor p cid = "channel") ∧
    folderNameFor "" cid = sanitize_for_fs ("channel_" ++ toString cid) := by
  refine ⟨by simp [folderNameFor, hp], ?_, by simp [folderNameFor]⟩
  intro h
  simp [folderNameFor, hp, sanitize_for_fs, h]

/-- C9 witness: the amended statement at the concrete path `"..."`. -/
theorem c9_witness :
    folderNameFor "..." 3 = sanitize_for_fs "..." ∧
    folderNameFor "..." 3 = "channel" ∧
    folderNameFor "" 3 = sanitize_for_fs ("channel_" ++ toString (3 : Int)) := by
  have h := c9_folder_name_amended "..." 3 (by decide)
  exact ⟨h.1, h.2.1 (by decide), h.2.2⟩

/-! ## C10 -/

/-- C10: a manual_list entry whose stripped path is empty is dropped
silently by the queue-building loop: removing it from the configuration
changes neither the resulting state (no resolution, no queueing) nor the
emitted trace (no error reply, no diagnostic). -/
theorem c10_blank_entry_silently_dropped (env : Env) (s : BotState) (e : ConfigEntry)
    (xs ys : List ConfigEntry) (he : pyStrip e.path = "") :
    manualLoop env s (xs ++ e :: ys) = manualLoop env s (xs ++ ys) := by
  induction xs generalizing s with
  | nil => simp [manualLoop, he]
  | cons ch rest ih =>
    simp only [List.cons_append, manualLoop]
    by_cases h1 : pyStrip ch.path = ""
    · simp only [if_pos h1]
      exact ih s
    · simp only [if_neg h1]
      by_cases h2 : env.getChannelIDFromPath (pyStrip ch.path) ≤ 0
      · simp [h2, ih]
      · simp [h2, ih]

/-! ## Lemmas about traces -/

theorem startedChannels_append (a b : List Out) :
    startedChannels (a ++ b) = startedChannels a ++ startedChannels b := by
  simp [startedChannels]

theorem send_cases (s : BotState) (t : String) :
    sendToRequestTarget s t = [] ∨ ∃ tgt, sendToRequestTarget s t = [Out.chat tgt t] := by
  unfold sendToRequestTarget
  by_cases h1 : s.requestOrigin = some Origin.privateMsg
  · simp only [if_pos h1]
    cases s.requestUserId with
    | none => exact Or.inl rfl
    | some u => exact Or.inr ⟨Target.user u, rfl⟩
  · simp only [if_neg h1]
    by_cases h2 : s.requestOrigin = some Origin.channelMsg
    · simp only [if_pos h2]
      cases s.requestChannelId with
      | none => exact Or.inl rfl
      | some cid => exact Or.inr ⟨Target.channel cid, rfl⟩
    · simp only [if_neg h2]
      exact Or.inl (by simp)

theorem startedChannels_nil : startedChannels [] = [] := rfl

theorem startedChannels_cons (o : Out) (l : List Out) :
    startedChannels (o :: l) =
      (match o with | Out.startDownloads c _ => [c] | _ => []) ++ startedChannels l := by
  cases o <;> simp [startedChannels]

theorem startedChannels_send (s : BotState) (t : String) :
    startedChannels (sendToRequestTarget s t) = [] := by
  rcases send_cases s t with h | ⟨tgt, h⟩ <;> simp [h, startedChannels]

theorem processFiles_started_nil (env : Env) (dir : String) :
    ∀ (files : List RFile) (acc : FilesAcc),
      startedChannels (processFiles env dir files acc).outs = startedChannels acc.outs := by
  intro files
  induction files with
  | nil => intro acc; rfl
  | cons rf rest ih =>
    intro acc
    simp only [processFiles]
    by_cases hrecv : 0 < env.doRecvFile rf.channelID rf.fileID
    · rw [if_pos hrecv, ih]
      simp [startedChannels]
    · rw [if_neg hrecv, ih]
      simp [startedChannels]

theorem startFiles_startedChannels (env : Env) (s : BotState) (c : Int) (p : String) :
    startedChannels (startFilesForChannel env s c p).2.1 = [c] := by
  simp only [startFilesForChannel]
  cases hf : env.getChannelFiles c with
  | nil =>
    rcases send_cases s ("Channel '" ++ p ++ "' contains no files. Moving on.") with
      h | ⟨tgt, h⟩ <;> simp [h, startedChannels]
  | cons f fs =>
    have hout : startedChannels (processFiles env (s.outputDir ++ "/" ++ folderNameFor p c)
        (f :: fs) ⟨s.expectedDownloads, s.completedDownloads, 0, []⟩).outs = [] := by
      rw [processFiles_started_nil]
      rfl
    by_cases h0 : (processFiles env (s.outputDir ++ "/" ++ folderNameFor p c) (f :: fs)
        ⟨s.expectedDownloads, s.completedDownloads, 0, []⟩).started = 0
    · simp [h0, startedChannels_append, startedChannels_send, startedChannels_cons,
        startedChannels_nil, hout]
    · simp [h0, startedChannels_append, startedChannels_cons, startedChannels_nil, hout]

theorem advanceLoop_fifo (env : Env) : ∀ (q : List Task) (s : BotState),
    ∃ k, k ≤ q.length ∧
      startedChannels (advanceLoop env q s).2 = (q.take k).map Task.id := by
  intro q
  induction q with
  | nil =>
    intro s
    refine ⟨0, Nat.le_refl 0, ?_⟩
    simp only [advanceLoop]
    by_cases hd : s.downloadsStarted <;>
      simp [hd, startedChannels_send, startedChannels_nil]
  | cons task rest ih =>
    intro s
    simp only [advanceLoop]
    split
    · exact ⟨0, Nat.zero_le _, by simp [startedChannels_send, startedChannels_nil]⟩
    · split
      · obtain ⟨k, hk, hs⟩ := ih ((startFilesForChannel env
            { s with downloadQueue := rest, currentChannelId := some task.id }
            task.id task.path).1)
        refine ⟨k + 1, by simpa using Nat.succ_le_succ hk, ?_⟩
        simp [startedChannels_append, startedChannels_send,
          startFiles_startedChannels, hs]
      · refine ⟨1, by simp, ?_⟩
        simp [startedChannels_append, startedChannels_send, startFiles_startedChannels]

/-! ## C4 -/

/-- C4 counterexample: with the same channel id queued twice, one advance
run starts channel 1 twice — the claim that no channel is ever started
twice within one campaign fails. -/
theorem c4_counterexample :
    startedChannels (startNextChannelDownload envA stC4).2 = [1, 1] := by decide

/-- C4 amended: channel downloads are started strictly in queue (FIFO)
order — the started channels are always the ids of a queue prefix, in
order — and no queue entry is started twice; a channel id is started twice
only when it occurs twice in the queue, so under a duplicate-free queue no
channel is started twice. -/
theorem c4_fifo_amended (env : Env) (s : BotState)
    (hnd : (s.downloadQueue.map Task.id).Nodup) :
    ∃ k, k ≤ s.downloadQueue.length ∧
      startedChannels (startNextChannelDownload env s).2 =
        (s.downloadQueue.take k).map Task.id ∧
      (startedChannels (startNextChannelDownload env s).2).Nodup := by
  simp only [startNextChannelDownload]
  obtain ⟨k, hk, hs⟩ := advanceLoop_fifo env s.downloadQueue s
  refine ⟨k, hk, hs, ?_⟩
  rw [hs]
  have hsub : List.Sublist (List.map Task.id (List.take k s.downloadQueue))
      (List.map Task.id s.downloadQueue) :=
    (s.downloadQueue.take_sublist k).map Task.id
  exact List.Nodup.sublist hsub hnd

/-- C4 witness: the amended statement at a concrete duplicate-free queue. -/
theorem c4_witness :
    ∃ k, k ≤ stC4w.downloadQueue.length ∧
      startedChannels (startNextChannelDownload envA stC4w).2 =
        (stC4w.downloadQueue.take k).map Task.id ∧
      (startedChannels (startNextChannelDownload envA stC4w).2).Nodup :=
  c4_fifo_amended envA stC4w (by decide)

theorem send_eq_of_replyTarget (s : BotState) (tgt : Target) (t : String)
    (h : replyTarget s = some tgt) : sendToRequestTarget s t = [Out.chat tgt t] := by
  unfold replyTarget at h
  unfold sendToRequestTarget
  by_cases h1 : s.requestOrigin = some Origin.privateMsg
  · rw [if_pos h1] at h ⊢
    cases hx : s.requestUserId with
    | none => rw [hx] at h; simp at h
    | some u =>
      rw [hx] at h
      simp only [Option.map_some'] at h
      obtain rfl : Target.user u = tgt := by injection h
      rfl
  · rw [if_neg h1] at h ⊢
    by_cases h2 : s.requestOrigin = some Origin.channelMsg
    · rw [if_pos h2] at h ⊢
      cases hx : s.requestChannelId with
      | none => rw [hx] at h; simp at h
      | some cid =>
        rw [hx] at h
        simp only [Option.map_some'] at h
        obtain rfl : Target.channel cid = tgt := by injection h
        rfl
    · rw [if_neg h2] at h
      simp at h

theorem chatTexts_append (a b : List Out) :
    chatTexts (a ++ b) = chatTexts a ++ chatTexts b := by
  simp [chatTexts]

theorem chatTexts_cons (o : Out) (l : List Out) :
    chatTexts (o :: l) =
      (match o with | Out.chat _ t => [t] | _ => []) ++ chatTexts l := by
  cases o <;> simp [chatTexts]

theorem manualLoop_spec (env : Env) :
    ∀ (entries : List ConfigEntry) (s : BotState) (tgt : Target),
      replyTarget s = some tgt →
      (manualLoop env s entries).1.downloadQueue =
        s.downloadQueue ++ resolvedTasks env entries ∧
      chatTexts (manualLoop env s entries).2 =
        (unresolvedPaths env entries).map
          (fun p => "Channel not found for path: " ++ p) := by
  intro entries
  induction entries with
  | nil =>
    intro s tgt h
    simp [manualLoop, resolvedTasks, unresolvedPaths, chatTexts]
  | cons ch rest ih =>
    intro s tgt h
    simp only [manualLoop]
    by_cases h1 : pyStrip ch.path = ""
    · rw [if_pos h1]
      obtain ⟨hq, hc⟩ := ih s tgt h
      exact ⟨by simp [resolvedTasks, h1, hq],
             by simp [unresolvedPaths, h1, hc]⟩
    · rw [if_neg h1]
      by_cases h2 : env.getChannelIDFromPath (pyStrip ch.path) ≤ 0
      · rw [if_pos h2]
        obtain ⟨hq, hc⟩ := ih s tgt h
        constructor
        · simpa [resolvedTasks, h1, h2] using hq
        · rw [send_eq_of_replyTarget s tgt _ h]
          simp only [List.cons_append, List.nil_append, chatTexts_append,
            chatTexts_cons, hc]
          simp [unresolvedPaths, h1, h2]
      · rw [if_neg h2]
        obtain ⟨hq, hc⟩ := ih
          { s with
            channelPaths := alSet s.channelPaths
              (env.getChannelIDFromPath (pyStrip ch.path)) (pyStrip ch.path)
            downloadQueue := s.downloadQueue ++
              [⟨env.getChannelIDFromPath (pyStrip ch.path), pyStrip ch.path,
                ch.password, false⟩] } tgt h
        constructor
        · simp only [hq]
          simp [resolvedTasks, h1, h2]
        · simp only [chatTexts, List.filterMap_cons] at hc ⊢
          simp [unresolvedPaths, h1, h2, hc]

/-! ## C8 -/

/-- C8: building a manual_list queue never aborts: every entry with a
non-empty unresolvable path produces exactly one "Channel not found" chat
reply to the request origin and is dropped, and the resulting queue is
exactly the resolvable entries in configuration order. -/
theorem c8_manual_list_partial_failure (env : Env) (s : BotState) (tgt : Target)
    (hm : s.channelMode = "manual_list") (hdel : replyTarget s = some tgt) :
    (prepareManualQueue env s).1.downloadQueue =
      resolvedTasks env s.channelsToDownload ∧
    chatTexts (prepareManualQueue env s).2 =
      (unresolvedPaths env s.channelsToDownload).map
        (fun p => "Channel not found for path: " ++ p) := by
  have hns : ¬ s.channelMode = "single" := by rw [hm]; decide
  simp only [prepareManualQueue]
  rw [if_neg hns]
  obtain ⟨hq, hc⟩ := manualLoop_spec env s.channelsToDownload
    { s with downloadQueue := ([] : List Task) } tgt hdel
  exact ⟨by simpa using hq, by simpa using hc⟩

/-- C8 witness: the statement at a concrete two-entry configuration with
one unresolvable path. -/
theorem c8_witness :
    (prepareManualQueue envC8 stC8).1.downloadQueue =
      resolvedTasks envC8 stC8.channelsToDownload ∧
    chatTexts (prepareManualQueue envC8 stC8).2 =
      (unresolvedPaths envC8 stC8.channelsToDownload).map
        (fun p => "Channel not found for path: " ++ p) :=
  c8_manual_list_partial_failure envC8 stC8 (Target.user 2) rfl rfl

/-! ## Lemmas separating the running-total notification from every other
chat message the orchestrator can emit -/

theorem ne_of_data_get (s t : String) (i : Nat) (h : s.data[i]? ≠ t.data[i]?) :
    s ≠ t :=
  fun he => h (by rw [he])

theorem data_get_append (a b c : List Char) (i : Nat) (h : i < a.length) :
    ((a ++ b) ++ c)[i]? = a[i]? := by
  rw [List.getElem?_append_left (by simp only [List.length_append]; omega),
    List.getElem?_append_left h]

/-- A message of the shape `pre ++ mid ++ post` that differs from
`"Downloaded a total of "` at some index inside both prefixes is never the
running-total notification, whatever `mid`, `post` and the count are. -/
theorem msg_ne_running (pre mid post : String) (n : Nat) (i : Nat)
    (hi : i < pre.data.length)
    (hi2 : i < ("Downloaded a total of " : String).data.length)
    (hne : pre.data[i]? ≠ ("Downloaded a total of " : String).data[i]?) :
    pre ++ mid ++ post ≠ runningTotalMsg n := by
  apply ne_of_data_get _ _ i
  unfold runningTotalMsg
  simp only [String.data_append]
  rw [data_get_append _ _ _ i hi, data_get_append _ _ _ i hi2]
  exact hne

theorem processFiles_no_chat (env : Env) (dir : String) (tgt : Target) (t : String) :
    ∀ (files : List RFile) (acc : FilesAcc), Out.chat tgt t ∉ acc.outs →
      Out.chat tgt t ∉ (processFiles env dir files acc).outs := by
  intro files
  induction files with
  | nil => intro acc h; exact h
  | cons rf rest ih =>
    intro acc h
    simp only [processFiles]
    by_cases hrecv : 0 < env.doRecvFile rf.channelID rf.fileID
    · rw [if_pos hrecv]
      apply ih
      intro hm
      rcases List.mem_append.mp hm with hm | hm
      · exact h hm
      · simp at hm
    · rw [if_neg hrecv]
      apply ih
      intro hm
      rcases List.mem_append.mp hm with hm | hm
      · rcases List.mem_append.mp hm with hm | hm
        · exact h hm
        · simp at hm
      · simp at hm

theorem startFiles_chat_mem (env : Env) (s : BotState) (c : Int) (p : String)
    (tgt : Target) (t : String)
    (h : Out.chat tgt t ∈ (startFilesForChannel env s c p).2.1) :
    t = "Channel '" ++ p ++ "' contains no files. Moving on." ∨
    t = "Failed to start transfers for channel '" ++ p ++ "'. Moving on." := by
  rw [startFilesForChannel] at h
  rcases hf : env.getChannelFiles c with _ | ⟨f, fs⟩ <;> rw [hf] at h
  · rcases send_cases s ("Channel '" ++ p ++ "' contains no files. Moving on.") with
      hs | ⟨tgt', hs⟩ <;> rw [hs] at h <;> simp at h
    exact Or.inl h.2
  · have hnc := processFiles_no_chat env (s.outputDir ++ "/" ++ folderNameFor p c) tgt t
      (f :: fs) ⟨s.expectedDownloads, s.completedDownloads, 0, []⟩ (by simp)
    simp only at h
    split at h
    · rcases List.mem_append.mp h with hm | hm
      · rcases List.mem_append.mp hm with hm | hm
        · simp at hm
        · exact absurd hm hnc
      · rcases send_cases _ ("Failed to start transfers for channel '" ++ p
            ++ "'. Moving on.") with hs | ⟨tgt', hs⟩ <;> rw [hs] at hm <;> simp at hm
        exact Or.inr hm.2
    · rcases List.mem_append.mp h with hm | hm
      · simp at hm
      · exact absurd hm hnc

/-- The running-total notification is never delivered by a reply-sink call
carrying a message of a different fixed shape. -/
theorem run_not_mem_send (s : BotState) (pre mid post : String) (n i : Nat)
    (hi : i < pre.data.length)
    (hi2 : i < ("Downloaded a total of " : String).data.length)
    (hne : pre.data[i]? ≠ ("Downloaded a total of " : String).data[i]?)
    (tgt : Target) :
    Out.chat tgt (runningTotalMsg n) ∉ sendToRequestTarget s (pre ++ mid ++ post) := by
  intro hm
  rcases send_cases s (pre ++ mid ++ post) with hs | ⟨tgt', hs⟩ <;>
    rw [hs] at hm <;> simp at hm
  exact msg_ne_running pre mid post n i hi hi2 hne hm.2.symm

/-- No advance chain ever emits the running-total notification: its chat
messages are the channel announcements, the password prompt, the no-files,
failed-start and final-summary notices, all of other shapes. -/
theorem advance_no_running (env : Env) :
    ∀ (q : List Task) (s : BotState) (tgt : Target) (n : Nat),
      Out.chat tgt (runningTotalMsg n) ∉ (advanceLoop env q s).2 := by
  intro q
  induction q with
  | nil =>
    intro s tgt n hm
    simp only [advanceLoop] at hm
    by_cases hd : s.downloadsStarted
    · rw [if_pos hd] at hm
      exact run_not_mem_send s
        "Finished downloading from all channels. Total files downloaded: "
        (toString s.totalCompletedFiles) "." n 0 (by decide) (by decide)
        (by decide) tgt hm
    · rw [if_neg hd] at hm
      simp at hm
  | cons task rest ih =>
    intro s tgt n hm
    simp only [advanceLoop] at hm
    split at hm
    · exact run_not_mem_send _ "Channel '" task.path
        "' likely requires a password. Reply with the password only, or type 'skip' to skip this channel."
        n 0 (by decide) (by decide) (by decide) tgt hm
    · split at hm
      · simp only at hm
        rcases List.mem_append.mp hm with hm | hm
        · rcases List.mem_append.mp hm with hm | hm
          · exact run_not_mem_send _ "Downloading files from channel '" task.path "'."
              n 8 (by decide) (by decide) (by decide) tgt hm
          · rcases startFiles_chat_mem _ _ _ _ _ _ hm with ht | ht
            · exact msg_ne_running "Channel '" task.path
                "' contains no files. Moving on." n 0 (by decide) (by decide)
                (by decide) ht.symm
            · exact msg_ne_running "Failed to start transfers for channel '" task.path
                "'. Moving on." n 0 (by decide) (by decide) (by decide) ht.symm
        · exact ih _ tgt n hm
      · simp only at hm
        rcases List.mem_append.mp hm with hm | hm
        · exact run_not_mem_send _ "Downloading files from channel '" task.path "'."
            n 8 (by decide) (by decide) (by decide) tgt hm
        · rcases startFiles_chat_mem _ _ _ _ _ _ hm with ht | ht
          · exact msg_ne_running "Channel '" task.path
              "' contains no files. Moving on." n 0 (by decide) (by decide)
              (by decide) ht.symm
          · exact msg_ne_running "Failed to start transfers for channel '" task.path
              "'. Moving on." n 0 (by decide) (by decide) (by decide) ht.symm

/-- The trace of a counted terminal completion: some non-chat prefix, then
the conditional running-total notification, then a remainder that never
contains a running-total notification. -/
theorem onFileTransfer_counted_shape (env : Env) (s : BotState) (ft : FT) (lp : String)
    (hexp : alGet s.expectedDownloads (ft.channelID, ft.remoteFileName) = some lp)
    (hnew : (ft.channelID, ft.remoteFileName) ∉ s.completedDownloads)
    (hna : ¬ ft.status = TStatus.active) :
    ∃ pre rest : List Out,
      (onFileTransfer env s ft).2 = pre ++
        (if (recordCompletion s (ft.channelID, ft.remoteFileName)).totalCompletedFiles %
            (recordCompletion s (ft.channelID, ft.remoteFileName)).notifyEvery = 0 then
          sendToRequestTarget (recordCompletion s (ft.channelID, ft.remoteFileName))
            (runningTotalMsg
              (recordCompletion s (ft.channelID, ft.remoteFileName)).totalCompletedFiles)
        else []) ++ rest ∧
      (∀ tgt t, Out.chat tgt t ∉ pre) ∧
      (∀ tgt n, Out.chat tgt (runningTotalMsg n) ∉ rest) := by
  have hpre : ∀ tgt t, Out.chat tgt t ∉
      (if ft.status = TStatus.finished then
        [Out.console ("Download finished: " ++ ft.remoteFileName ++ " -> " ++ lp)]
      else if ft.status = TStatus.error then
        [Out.console ("Error while downloading file: " ++ ft.remoteFileName)]
      else [Out.console ("Transfer closed: " ++ ft.remoteFileName)]) := by
    intro tgt t hm
    split at hm <;> try split at hm
    all_goals simp at hm
  simp only [onFileTransfer, hexp, if_neg hna, if_neg hnew]
  split
  case h_1 pending completed heq1 heq2 =>
    split
    case isTrue hle =>
      split
      case isTrue hcur =>
        refine ⟨_, sendToRequestTarget (recordCompletion s (ft.channelID, ft.remoteFileName))
            ("Finished downloading files from channel '"
            ++ (alGet (recordCompletion s (ft.channelID, ft.remoteFileName)).channelPaths
              ft.channelID).getD ("channel_" ++ toString ft.channelID) ++ "'.") ++
          (startNextChannelDownload env
            (recordCompletion s (ft.channelID, ft.remoteFileName))).2,
          by simp [List.append_assoc], hpre, ?_⟩
        intro tgt n hm
        rcases List.mem_append.mp hm with hm | hm
        · exact run_not_mem_send _ "Finished downloading files from channel '" _ "'."
            n 0 (by decide) (by decide) (by decide) tgt hm
        · exact advance_no_running env _ _ tgt n hm
      case isFalse hcur =>
        refine ⟨_, sendToRequestTarget (recordCompletion s (ft.channelID, ft.remoteFileName))
            ("Finished downloading files from channel '"
            ++ (alGet (recordCompletion s (ft.channelID, ft.remoteFileName)).channelPaths
              ft.channelID).getD ("channel_" ++ toString ft.channelID) ++ "'."),
          by simp [List.append_assoc], hpre, ?_⟩
        intro tgt n hm
        exact run_not_mem_send _ "Finished downloading files from channel '" _ "'."
          n 0 (by decide) (by decide) (by decide) tgt hm
    case isFalse hle =>
      exact ⟨_, [], by simp, hpre, by simp⟩
  case h_2 =>
    exact ⟨_, [], by simp, hpre, by simp⟩

/-! ## Slack accounting through the per-file loop -/

theorem slackOf_alSet_setAdd_self (exp : List ((Int × String) × String))
    (comp : List (Int × String)) (key : Int × String) (lp : String) :
    slackOf (alSet exp key lp) (setAdd comp key) key.1 ≤ slackOf exp comp key.1 := by
  unfold slackOf
  rw [keys_alSet, Finset.filter_insert, if_neg (fun h => h.2 ((mem_setAdd _ _ _).mpr
    (Or.inr rfl)))]
  apply Finset.card_le_card
  apply Finset.monotone_filter_right
  intro x hx
  exact ⟨hx.1, fun hm => hx.2 ((mem_setAdd _ _ _).mpr (Or.inl hm))⟩

theorem processFiles_started (env : Env) (dir : String) :
    ∀ (files : List RFile) (acc : FilesAcc),
      (processFiles env dir files acc).started = acc.started + succStarts env files := by
  intro files
  induction files with
  | nil => intro acc; simp [processFiles, succStarts]
  | cons rf rest ih =>
    intro acc
    simp only [processFiles]
    by_cases hrecv : 0 < env.doRecvFile rf.channelID rf.fileID
    · rw [if_pos hrecv, ih]
      simp only [succStarts, List.filter_cons, decide_eq_true_eq, if_pos hrecv]
      simp only [List.length_cons]
      omega
    · rw [if_neg hrecv, ih]
      simp only [succStarts, List.filter_cons, decide_eq_true_eq, if_neg hrecv]

theorem processFiles_slack_ne (env : Env) (dir : String) (c : Int) :
    ∀ (files : List RFile) (acc : FilesAcc), (∀ rf ∈ files, rf.channelID = c) →
      ∀ d, d ≠ c →
        slackOf (processFiles env dir files acc).expected
            (processFiles env dir files acc).completed d =
          slackOf acc.expected acc.completed d := by
  intro files
  induction files with
  | nil => intro acc _ d _; rfl
  | cons rf rest ih =>
    intro acc hch d hd
    have hrf : rf.channelID = c := hch rf (by simp)
    have hrest : ∀ x ∈ rest, x.channelID = c := fun x hx => hch x (by simp [hx])
    simp only [processFiles]
    by_cases hrecv : 0 < env.doRecvFile rf.channelID rf.fileID
    · rw [if_pos hrecv, ih _ hrest d hd]
      exact slackOf_alSet_ne _ _ _ _ _ (by simpa [hrf] using hd)
    · rw [if_neg hrecv, ih _ hrest d hd]
      rw [slackOf_setAdd_ne _ _ _ _ (by simpa [hrf] using hd)]
      exact slackOf_alSet_ne _ _ _ _ _ (by simpa [hrf] using hd)

theorem processFiles_slack_le (env : Env) (dir : String) (c : Int) :
    ∀ (files : List RFile) (acc : FilesAcc), (∀ rf ∈ files, rf.channelID = c) →
      slackOf (processFiles env dir files acc).expected
          (processFiles env dir files acc).completed c ≤
        slackOf acc.expected acc.completed c + succStarts env files := by
  intro files
  induction files with
  | nil => intro acc _; simp [processFiles, succStarts]
  | cons rf rest ih =>
    intro acc hch
    have hrf : rf.channelID = c := hch rf (by simp)
    have hrest : ∀ x ∈ rest, x.channelID = c := fun x hx => hch x (by simp [hx])
    simp only [processFiles]
    by_cases hrecv : 0 < env.doRecvFile rf.channelID rf.fileID
    · rw [if_pos hrecv]
      have hcount : succStarts env (rf :: rest) = succStarts env rest + 1 := by
        simp only [succStarts, List.filter_cons, decide_eq_true_eq, if_pos hrecv]
        simp only [List.length_cons]
      rw [hcount]
      refine le_trans (ih _ hrest) ?_
      have h1 := slackOf_alSet_le acc.expected acc.completed
        (rf.channelID, if rf.fileName = "" then "file_" ++ toString rf.fileID
          else rf.fileName)
        (dir ++ "/" ++ (if rf.fileName = "" then "file_" ++ toString rf.fileID
          else rf.fileName)) c
      exact Nat.le_trans (Nat.add_le_add_right h1 _) (by omega)
    · rw [if_neg hrecv]
      have hcount : succStarts env (rf :: rest) = succStarts env rest := by
        simp only [succStarts, List.filter_cons, decide_eq_true_eq, if_neg hrecv]
      rw [hcount]
      refine le_trans (ih _ hrest) ?_
      have h1 : slackOf (alSet acc.expected
          (rf.channelID, if rf.fileName = "" then "file_" ++ toString rf.fileID
            else rf.fileName)
          (dir ++ "/" ++ (if rf.fileName = "" then "file_" ++ toString rf.fileID
            else rf.fileName)))
          (setAdd acc.completed
            (rf.channelID, if rf.fileName = "" then "file_" ++ toString rf.fileID
              else rf.fileName)) c ≤
          slackOf acc.expected acc.completed c := by
        have h2 := slackOf_alSet_setAdd_self acc.expected acc.completed
          (rf.channelID, if rf.fileName = "" then "file_" ++ toString rf.fileID
            else rf.fileName)
          (dir ++ "/" ++ (if rf.fileName = "" then "file_" ++ toString rf.fileID
            else rf.fileName))
        simpa [hrf] using h2
      exact Nat.add_le_add_right h1 _

/-! ## Facts about `startFilesForChannel` -/

theorem startFiles_current (env : Env) (s : BotState) (c : Int) (p : String) :
    (startFilesForChannel env s c p).1.currentChannelId = s.currentChannelId := by
  simp only [startFilesForChannel]
  cases hf : env.getChannelFiles c with
  | nil => rfl
  | cons f fs =>
    simp only []
    split <;> rfl

theorem startFiles_pending_self (env : Env) (s : BotState) (c : Int) (p : String) :
    alGet (startFilesForChannel env s c p).1.channelPendingCounts c =
      some (succStarts env (env.getChannelFiles c)) := by
  simp only [startFilesForChannel]
  cases hf : env.getChannelFiles c with
  | nil =>
    simp only []
    rw [show succStarts env [] = 0 from rfl]
    exact alGet_alSet_self _ _ _
  | cons f fs =>
    have hst : (processFiles env (s.outputDir ++ "/" ++ folderNameFor p c)
        (f :: fs) ⟨s.expectedDownloads, s.completedDownloads, 0, []⟩).started =
        succStarts env (f :: fs) := by
      rw [processFiles_started]
      simp
    simp only []
    split <;> rw [alGet_alSet_self, hst]

theorem startFiles_comp_self (env : Env) (s : BotState) (c : Int) (p : String) :
    alGet (startFilesForChannel env s c p).1.channelCompletedCounts c = some 0 := by
  simp only [startFilesForChannel]
  cases hf : env.getChannelFiles c with
  | nil => exact alGet_alSet_self _ _ _
  | cons f fs =>
    simp only []
    split <;> exact alGet_alSet_self _ _ _

theorem startFiles_pending_ne (env : Env) (s : BotState) (c : Int) (p : String)
    (d : Int) (hd : d ≠ c) :
    alGet (startFilesForChannel env s c p).1.channelPendingCounts d =
      alGet s.channelPendingCounts d := by
  simp only [startFilesForChannel]
  cases hf : env.getChannelFiles c with
  | nil => exact alGet_alSet_ne _ _ _ _ hd
  | cons f fs =>
    simp only []
    split <;> exact alGet_alSet_ne _ _ _ _ hd

theorem startFiles_comp_ne (env : Env) (s : BotState) (c : Int) (p : String)
    (d : Int) (hd : d ≠ c) :
    alGet (startFilesForChannel env s c p).1.channelCompletedCounts d =
      alGet s.channelCompletedCounts d := by
  simp only [startFilesForChannel]
  cases hf : env.getChannelFiles c with
  | nil => exact alGet_alSet_ne _ _ _ _ hd
  | cons f fs =>
    simp only []
    split <;> exact alGet_alSet_ne _ _ _ _ hd

theorem startFiles_slack_ne (env : Env) (s : BotState) (c : Int) (p : String)
    (hwf : EnvWF env) (d : Int) (hd : d ≠ c) :
    slack (startFilesForChannel env s c p).1 d = slack s d := by
  simp only [startFilesForChannel]
  cases hf : env.getChannelFiles c with
  | nil => rfl
  | cons f fs =>
    have hch : ∀ rf ∈ (f :: fs : List RFile), rf.channelID = c := by
      intro rf hm
      exact hwf c rf (hf ▸ hm)
    have h := processFiles_slack_ne env (s.outputDir ++ "/" ++ folderNameFor p c) c
      (f :: fs) ⟨s.expectedDownloads, s.completedDownloads, 0, []⟩ hch d hd
    simp only []
    split <;> exact h

theorem startFiles_slack_self_le (env : Env) (s : BotState) (c : Int) (p : String)
    (hwf : EnvWF env) :
    slack (startFilesForChannel env s c p).1 c ≤
      slack s c + succStarts env (env.getChannelFiles c) := by
  simp only [startFilesForChannel]
  cases hf : env.getChannelFiles c with
  | nil => exact Nat.le_add_right _ _
  | cons f fs =>
    have hch : ∀ rf ∈ (f :: fs : List RFile), rf.channelID = c := by
      intro rf hm
      exact hwf c rf (hf ▸ hm)
    have h := processFiles_slack_le env (s.outputDir ++ "/" ++ folderNameFor p c) c
      (f :: fs) ⟨s.expectedDownloads, s.completedDownloads, 0, []⟩ hch
    simp only []
    split <;> exact h

theorem startFiles_adv_succ (env : Env) (s : BotState) (c : Int) (p : String)
    (hadv : (startFilesForChannel env s c p).2.2 = true) :
    succStarts env (env.getChannelFiles c) = 0 := by
  rw [startFilesForChannel] at hadv
  cases hf : env.getChannelFiles c with
  | nil => rfl
  | cons f fs =>
    rw [hf] at hadv
    have hst := processFiles_started env (s.outputDir ++ "/" ++ folderNameFor p c)
      (f :: fs) ⟨s.expectedDownloads, s.completedDownloads, 0, []⟩
    simp only [] at hadv
    split at hadv
    · rename_i h0
      rw [hst] at h0
      simpa using h0
    · simp at hadv

/-! ## The counter invariant and its preservation -/

theorem startFiles_inv (env : Env) (s : BotState) (c : Int) (p : String)
    (hwf : EnvWF env) (hinv : InvCounts s) (hz : AllSlackZero s) :
    InvCounts (startFilesForChannel env s c p).1 ∧
    ((startFilesForChannel env s c p).2.2 = true →
      AllSlackZero (startFilesForChannel env s c p).1) ∧
    ((startFilesForChannel env s c p).2.2 = false →
      ∀ d, 0 < slack (startFilesForChannel env s c p).1 d → d = c) := by
  have hslack_self : slack (startFilesForChannel env s c p).1 c ≤
      succStarts env (env.getChannelFiles c) := by
    have h := startFiles_slack_self_le env s c p hwf
    rw [hz c] at h
    simpa using h
  refine ⟨?_, ?_, ?_⟩
  · intro d q hq
    by_cases hd : d = c
    · subst hd
      rw [startFiles_pending_self] at hq
      obtain rfl : succStarts env (env.getChannelFiles d) = q := by injection hq
      exact ⟨0, startFiles_comp_self env s d p, by simpa using hslack_self⟩
    · rw [startFiles_pending_ne env s c p d hd] at hq
      obtain ⟨m, hm, hle⟩ := hinv d q hq
      refine ⟨m, ?_, ?_⟩
      · rw [startFiles_comp_ne env s c p d hd]
        exact hm
      · rw [startFiles_slack_ne env s c p hwf d hd]
        exact hle
  · intro hadv d
    by_cases hd : d = c
    · subst hd
      have h0 := startFiles_adv_succ env s d p hadv
      omega
    · rw [startFiles_slack_ne env s c p hwf d hd]
      exact hz d
  · intro _ d hpos
    by_contra hd
    rw [startFiles_slack_ne env s c p hwf d hd, hz d] at hpos
    exact absurd hpos (by simp)

theorem advanceLoop_inv (env : Env) (hwf : EnvWF env) :
    ∀ (q : List Task) (s : BotState), InvCounts s → AllSlackZero s →
      SysInv (advanceLoop env q s).1 := by
  intro q
  induction q with
  | nil =>
    intro s hinv hz
    simp only [advanceLoop]
    refine ⟨hinv, ?_⟩
    intro d hpos
    have hpos' : 0 < slack s d := hpos
    rw [hz d] at hpos'
    exact absurd hpos' (by simp)
  | cons task rest ih =>
    intro s hinv hz
    simp only [advanceLoop]
    split
    · refine ⟨hinv, ?_⟩
      intro d hpos
      have hpos' : 0 < slack s d := hpos
      rw [hz d] at hpos'
      exact absurd hpos' (by simp)
    · have hsi := startFiles_inv env
        { s with downloadQueue := rest, currentChannelId := some task.id }
        task.id task.path hwf hinv hz
      split
      case isTrue hadv => exact ih _ hsi.1 (hsi.2.1 hadv)
      case isFalse hadv =>
        refine ⟨hsi.1, ?_⟩
        intro d hpos
        have hd := hsi.2.2 (by simpa using hadv) d hpos
        subst hd
        rw [startFiles_current]

theorem onFileTransfer_inv (env : Env) (hwf : EnvWF env) (s : BotState) (ft : FT)
    (hsi : SysInv s) : SysInv (onFileTransfer env s ft).1 := by
  simp only [onFileTransfer]
  split
  · exact hsi
  rename_i lp hexp
  split
  · exact hsi
  rename_i hact
  split
  · exact hsi
  rename_i hdone
  have hkey : (ft.channelID, ft.remoteFileName) ∈
      (s.expectedDownloads.map Prod.fst).toFinset :=
    List.mem_toFinset.mpr (mem_keys_of_alGet _ _ _ hexp)
  have hslack_self : slack (recordCompletion s
      (ft.channelID, ft.remoteFileName)) ft.channelID + 1 =
      slack s ft.channelID :=
    slackOf_setAdd_self _ _ _ hkey hdone
  have hslack_ne : ∀ d, d ≠ ft.channelID →
      slack (recordCompletion s (ft.channelID, ft.remoteFileName)) d =
        slack s d :=
    fun d hd => slackOf_setAdd_ne _ _ _ _ hd
  have hinv1 : InvCounts (recordCompletion s (ft.channelID, ft.remoteFileName)) := by
    intro d q hq
    have hq' : alGet s.channelPendingCounts d = some q := hq
    by_cases hd : d = ft.channelID
    · subst hd
      obtain ⟨m, hm, hle⟩ := hsi.1 ft.channelID q hq'
      refine ⟨m + 1, ?_, ?_⟩
      · show alGet (alSet s.channelCompletedCounts ft.channelID
          ((alGet s.channelCompletedCounts ft.channelID).getD 0 + 1)) ft.channelID =
          some (m + 1)
        rw [alGet_alSet_self, hm]
        rfl
      · omega
    · obtain ⟨m, hm, hle⟩ := hsi.1 d q hq'
      refine ⟨m, ?_, ?_⟩
      · show alGet (alSet s.channelCompletedCounts ft.channelID
          ((alGet s.channelCompletedCounts ft.channelID).getD 0 + 1)) d = some m
        rw [alGet_alSet_ne _ _ _ _ hd]
        exact hm
      · rw [hslack_ne d hd]
        exact hle
  have hconj2 : ∀ d, 0 < slack (recordCompletion s
      (ft.channelID, ft.remoteFileName)) d →
      (recordCompletion s (ft.channelID, ft.remoteFileName)).currentChannelId =
        some d := by
    intro d hpos
    by_cases hd : d = ft.channelID
    · subst hd
      exact hsi.2 ft.channelID (by omega)
    · rw [hslack_ne d hd] at hpos
      exact hsi.2 d hpos
  split
  case h_1 pending completed heq1 heq2 =>
    split
    case isTrue hle =>
      split
      case isTrue hcur =>
        apply advanceLoop_inv env hwf _ _ hinv1
        intro d
        by_cases hd : d = ft.channelID
        · subst hd
          obtain ⟨m, hm, hle2⟩ := hinv1 ft.channelID pending heq1
          rw [heq2] at hm
          obtain rfl : completed = m := by injection hm
          omega
        · rcases Nat.eq_zero_or_pos (slack (recordCompletion s
              (ft.channelID, ft.remoteFileName)) d) with h | h
          · exact h
          · have hcd := hconj2 d h
            rw [hcur] at hcd
            obtain rfl : ft.channelID = d := by injection hcd
            exact absurd rfl hd
      case isFalse hcur => exact ⟨hinv1, hconj2⟩
    case isFalse hle => exact ⟨hinv1, hconj2⟩
  all_goals exact ⟨hinv1, hconj2⟩

theorem processEvents_inv (env : Env) (hwf : EnvWF env) :
    ∀ (evts : List FT) (s : BotState), SysInv s → SysInv (processEvents env s evts) := by
  intro evts
  induction evts with
  | nil => intro s h; exact h
  | cons e rest ih =>
    intro s h
    exact ih _ (onFileTransfer_inv env hwf s e h)

theorem startDownloads_inv (env : Env) (hwf : EnvWF env) (s : BotState) (c : Int)
    (p : String) (hcur : s.currentChannelId = some c) (hinv : InvCounts s)
    (hz : AllSlackZero s) : SysInv (startDownloadsForChannel env s c p).1 := by
  simp only [startDownloadsForChannel]
  have hsi := startFiles_inv env s c p hwf hinv hz
  split
  case isTrue hadv => exact advanceLoop_inv env hwf _ _ hsi.1 (hsi.2.1 hadv)
  case isFalse hadv =>
    refine ⟨hsi.1, ?_⟩
    intro d hpos
    have hd := hsi.2.2 (by simpa using hadv) d hpos
    subst hd
    rw [startFiles_current]
    exact hcur

/-! ## C2 -/

/-- C2 counterexample: channel 1 holds one file whose transfer start
fails: one start attempt is issued, yet the finalized pending count is 0 —
the pending count does not equal the number of start attempts. -/
theorem c2_counterexample :
    recvAttempts (startFilesForChannel envC2 stC2 1 "p").2.1 = 1 ∧
    alGet (startFilesForChannel envC2 stC2 1 "p").1.channelPendingCounts 1 = some 0 ∧
    alGet (startFilesForChannel envC2 stC2 1 "p").1.channelPendingCounts 1 ≠
      some (recvAttempts (startFilesForChannel envC2 stC2 1 "p").2.1) := by
  refine ⟨by decide, by decide, by decide⟩

/-- C2 amended: the finalized pending count of a channel equals the number
of successful transfer starts (positive handles) for that pass, not the
number of start attempts; and under the Session-Client contract that a
channel lists only its own files, the channel's completed count never
exceeds its finalized pending count under any subsequent sequence of
transfer events (starting from a state with sound counters and no
uncompleted expected keys, the startup configuration included). -/
theorem c2_pending_completed_amended (env : Env) (s : BotState) (c d : Int)
    (cpath : String) (evts : List FT) (q m : Nat)
    (hwf : EnvWF env) (hinv : InvCounts s) (hz : AllSlackZero s)
    (hcur : s.currentChannelId = some c)
    (hpend : alGet (processEvents env (startDownloadsForChannel env s c cpath).1
      evts).channelPendingCounts d = some q)
    (hcomp : alGet (processEvents env (startDownloadsForChannel env s c cpath).1
      evts).channelCompletedCounts d = some m) :
    alGet (startFilesForChannel env s c cpath).1.channelPendingCounts c =
      some (succStarts env (env.getChannelFiles c)) ∧ m ≤ q := by
  refine ⟨startFiles_pending_self env s c cpath, ?_⟩
  have hsys := processEvents_inv env hwf evts _
    (startDownloads_inv env hwf s c cpath hcur hinv hz)
  obtain ⟨m', hm', hle⟩ := hsys.1 d q hpend
  rw [hcomp] at hm'
  obtain rfl : m = m' := by injection hm'
  omega

/-- C2 witness: the amended statement at a concrete one-file channel whose
start succeeds and whose transfer then finishes. -/
theorem c2_witness :
    alGet (startFilesForChannel envC2w stC2 1 "p").1.channelPendingCounts 1 =
      some (succStarts envC2w (envC2w.getChannelFiles 1)) ∧ (1 : Nat) ≤ 1 :=
  c2_pending_completed_amended envC2w stC2 1 1 "p" [ftC2] 1 1
    (by
      intro c rf h
      by_cases hc : c = 1
      · subst hc
        simp [envC2w] at h
        simp [h]
      · simp [envC2w, hc] at h)
    (by
      intro c p h
      simp [stC2, initialBotState, alGet] at h)
    (by
      intro c
      simp [slack, slackOf, stC2, initialBotState])
    rfl (by decide) (by decide)

/-! ## C6 -/

/-- C6: for every counted terminal completion (expected key, not yet
completed, terminal status) with a deliverable request origin and positive
notify_every, the running-total chat notification for the new total is
emitted if and only if the new global total is a positive multiple of
notify_every. -/
theorem c6_running_total_notice (env : Env) (s : BotState) (ft : FT) (lp : String)
    (tgt : Target)
    (hexp : alGet s.expectedDownloads (ft.channelID, ft.remoteFileName) = some lp)
    (hnew : (ft.channelID, ft.remoteFileName) ∉ s.completedDownloads)
    (hterm : ft.status = TStatus.finished ∨ ft.status = TStatus.error ∨
      ft.status = TStatus.closed)
    (hdel : replyTarget s = some tgt) (_hN : 0 < s.notifyEvery) :
    (Out.chat tgt (runningTotalMsg (s.totalCompletedFiles + 1)) ∈
        (onFileTransfer env s ft).2) ↔
      ∃ j, 0 < j ∧ s.totalCompletedFiles + 1 = j * s.notifyEvery := by
  have hna : ¬ ft.status = TStatus.active := by
    rcases hterm with h | h | h <;> simp [h]
  obtain ⟨pre, rest, hout, hpre, hrest⟩ :=
    onFileTransfer_counted_shape env s ft lp hexp hnew hna
  have hrt : replyTarget (recordCompletion s (ft.channelID, ft.remoteFileName)) =
      some tgt := hdel
  constructor
  · intro hm
    rw [hout] at hm
    rcases List.mem_append.mp hm with hm | hm
    · rcases List.mem_append.mp hm with hm | hm
      · exact absurd hm (hpre tgt _)
      · by_cases hc : (recordCompletion s
              (ft.channelID, ft.remoteFileName)).totalCompletedFiles %
            (recordCompletion s (ft.channelID, ft.remoteFileName)).notifyEvery = 0
        · have hmod : (s.totalCompletedFiles + 1) % s.notifyEvery = 0 := hc
          obtain ⟨j, hj⟩ := Nat.dvd_of_mod_eq_zero hmod
          refine ⟨j, ?_, hj.trans (Nat.mul_comm _ _)⟩
          rcases Nat.eq_zero_or_pos j with rfl | hj0
          · rw [Nat.mul_zero] at hj
            omega
          · exact hj0
        · rw [if_neg hc] at hm
          simp at hm
    · exact absurd hm (hrest tgt _)
  · rintro ⟨j, hj0, hj⟩
    have hmod : (s.totalCompletedFiles + 1) % s.notifyEvery = 0 := by
      rw [hj]
      exact Nat.mul_mod_left j s.notifyEvery
    rw [hout, if_pos (show (recordCompletion s
          (ft.channelID, ft.remoteFileName)).totalCompletedFiles %
        (recordCompletion s (ft.channelID, ft.remoteFileName)).notifyEvery = 0
        from hmod),
      send_eq_of_replyTarget _ tgt _ hrt]
    simp [recordCompletion]

/-- C6 witness: the statement at a concrete ninth-to-tenth completion
(notify_every = 10). -/
theorem c6_witness :
    (Out.chat (Target.user 4) (runningTotalMsg (stC6.totalCompletedFiles + 1)) ∈
        (onFileTransfer envA stC6 ftC6).2) ↔
      ∃ j, 0 < j ∧ stC6.totalCompletedFiles + 1 = j * stC6.notifyEvery :=
  c6_running_total_notice envA stC6 ftC6 "out/g" (Target.user 4) (by decide)
    (by decide) (Or.inr (Or.inr rfl)) rfl (by decide)

/-! ## C1 -/

/-- C1 counterexample: a trigger from private user 2 while user 1's
campaign is running is answered "already running", but the stored request
origin has been overwritten: the stored request user changes from 1 to 2,
so the claim that all orchestrator state, including the stored request
origin, is unchanged fails. -/
theorem c1_counterexample :
    (onCmdUserTextMessage envA stC1 msgC1).1.requestUserId = some 2 ∧
    stC1.requestUserId = some 1 ∧
    (onCmdUserTextMessage envA stC1 msgC1).1.requestUserId ≠ stC1.requestUserId := by
  refine ⟨by decide, by decide, by decide⟩

/-- C1 amended: a trigger received while a campaign is active or the queue
is non-empty is answered "Downloads are already running." and leaves the
campaign state (queue, counters, expected/completed mappings, totals)
unchanged — but the stored request origin fields are first overwritten
with the new trigger's origin, which also receives the reply and all
subsequent notifications. -/
theorem c1_already_running_amended (env : Env) (s : BotState) (m : TextMsg)
    (haw : s.awaitingPasswordChannelId = none)
    (hme : m.fromUserId ≠ env.myUserId)
    (htrig : pyLower (pyStrip m.text) = "download files")
    (horig : originPrivateB env m = true ∨ originChannelB m = true)
    (hrun : s.downloadsStarted = true ∨ s.downloadQueue ≠ []) :
    (onCmdUserTextMessage env s m).1.downloadQueue = s.downloadQueue ∧
    (onCmdUserTextMessage env s m).1.downloadsStarted = s.downloadsStarted ∧
    (onCmdUserTextMessage env s m).1.expectedDownloads = s.expectedDownloads ∧
    (onCmdUserTextMessage env s m).1.completedDownloads = s.completedDownloads ∧
    (onCmdUserTextMessage env s m).1.channelPendingCounts = s.channelPendingCounts ∧
    (onCmdUserTextMessage env s m).1.channelCompletedCounts = s.channelCompletedCounts ∧
    (onCmdUserTextMessage env s m).1.channelPaths = s.channelPaths ∧
    (onCmdUserTextMessage env s m).1.totalCompletedFiles = s.totalCompletedFiles ∧
    (onCmdUserTextMessage env s m).1.awaitingPasswordChannelId = none ∧
    (onCmdUserTextMessage env s m).2 = [receivedConsole m] ++
      sendToRequestTarget (onCmdUserTextMessage env s m).1
        "Downloads are already running." ∧
    (originPrivateB env m = true →
      (onCmdUserTextMessage env s m).1.requestOrigin = some Origin.privateMsg ∧
      (onCmdUserTextMessage env s m).1.requestUserId = some m.fromUserId ∧
      (onCmdUserTextMessage env s m).1.requestChannelId = none) ∧
    (originPrivateB env m = false → originChannelB m = true →
      (onCmdUserTextMessage env s m).1.requestOrigin = some Origin.channelMsg ∧
      (onCmdUserTextMessage env s m).1.requestUserId = none ∧
      (onCmdUserTextMessage env s m).1.requestChannelId = some m.channelId) := by
  have hrun' : s.downloadsStarted = true ∨ ¬ s.downloadQueue = [] := hrun
  rcases horig with hor | hor
  · simp [onCmdUserTextMessage, if_neg hme, haw, htrig, hor, triggerBody, hrun']
  · by_cases hp : originPrivateB env m = true
    · simp [onCmdUserTextMessage, if_neg hme, haw, htrig, hp, triggerBody, hrun']
    · simp [onCmdUserTextMessage, if_neg hme, haw, htrig, hp, hor, triggerBody, hrun']

/-- C1 witness: the amended statement at the concrete hijacked trigger. -/
theorem c1_witness :
    (onCmdUserTextMessage envA stC1 msgC1).1.downloadQueue = stC1.downloadQueue ∧
    (onCmdUserTextMessage envA stC1 msgC1).1.downloadsStarted = stC1.downloadsStarted ∧
    (onCmdUserTextMessage envA stC1 msgC1).1.expectedDownloads = stC1.expectedDownloads ∧
    (onCmdUserTextMessage envA stC1 msgC1).1.completedDownloads = stC1.completedDownloads ∧
    (onCmdUserTextMessage envA stC1 msgC1).1.channelPendingCounts = stC1.channelPendingCounts ∧
    (onCmdUserTextMessage envA stC1 msgC1).1.channelCompletedCounts = stC1.channelCompletedCounts ∧
    (onCmdUserTextMessage envA stC1 msgC1).1.channelPaths = stC1.channelPaths ∧
    (onCmdUserTextMessage envA stC1 msgC1).1.totalCompletedFiles = stC1.totalCompletedFiles ∧
    (onCmdUserTextMessage envA stC1 msgC1).1.awaitingPasswordChannelId = none ∧
    (onCmdUserTextMessage envA stC1 msgC1).2 = [receivedConsole msgC1] ++
      sendToRequestTarget (onCmdUserTextMessage envA stC1 msgC1).1
        "Downloads are already running." ∧
    (originPrivateB envA msgC1 = true →
      (onCmdUserTextMessage envA stC1 msgC1).1.requestOrigin = some Origin.privateMsg ∧
      (onCmdUserTextMessage envA stC1 msgC1).1.requestUserId = some msgC1.fromUserId ∧
      (onCmdUserTextMessage envA stC1 msgC1).1.requestChannelId = none) ∧
    (originPrivateB envA msgC1 = false → originChannelB msgC1 = true →
      (onCmdUserTextMessage envA stC1 msgC1).1.requestOrigin = some Origin.channelMsg ∧
      (onCmdUserTextMessage envA stC1 msgC1).1.requestUserId = none ∧
      (onCmdUserTextMessage envA stC1 msgC1).1.requestChannelId = some msgC1.channelId) :=
  c1_already_running_amended envA stC1 msgC1 rfl (by decide) (by decide)
    (Or.inl (by decide)) (Or.inl rfl)

/-! ## C5 -/

/-- C5 counterexample: awaiting the password of channel 5 with the queue
empty (its task already popped), the reply "hunter2" starts channel 5's
downloads, yet the queue is still empty — there is no pending task
reference, so the supplied password is stored on no task at all. -/
theorem c5_counterexample :
    stC5.awaitingPasswordChannelId = some 5 ∧
    stC5.downloadQueue = [] ∧
    (onCmdUserTextMessage envA stC5 msgC5).1.downloadQueue = [] ∧
    Out.startDownloads 5 "Secret" ∈ (onCmdUserTextMessage envA stC5 msgC5).2 := by
  refine ⟨by decide, by decide, by decide, by decide⟩

/-- C5 amended: a non-skip reply from the request origin while awaiting a
password for channel C stores the trimmed text as the password of every
task still queued with id C (none, when the popped task had no duplicate),
sends a "Password saved" notice, and immediately runs
`startDownloadsForChannel` for C — which takes no password, so the
supplied password is not used for the started downloads. -/
theorem c5_password_reply_amended (env : Env) (s : BotState) (m : TextMsg) (cid : Int)
    (haw : s.awaitingPasswordChannelId = some cid)
    (hme : m.fromUserId ≠ env.myUserId)
    (horig :
      (s.requestOrigin = some Origin.privateMsg ∧ originPrivateB env m = true ∧
        some m.fromUserId = s.requestUserId) ∨
      (s.requestOrigin = some Origin.channelMsg ∧ originChannelB m = true ∧
        some m.channelId = s.requestChannelId))
    (hskip : ¬(pyLower (pyStrip m.text) = "skip" ∨ pyLower (pyStrip m.text) = "next" ∨
      pyLower (pyStrip m.text) = "")) :
    (onCmdUserTextMessage env s m).1 =
      (startDownloadsForChannel env
        { s with
          downloadQueue := s.downloadQueue.map (fun t =>
            if t.id = cid then { t with password := pyStrip m.text } else t),
          awaitingPasswordChannelId := none }
        cid ((alGet s.channelPaths cid).getD ("channel_" ++ toString cid))).1 ∧
    (onCmdUserTextMessage env s m).2 = [receivedConsole m] ++
      sendToRequestTarget
        { s with
          downloadQueue := s.downloadQueue.map (fun t =>
            if t.id = cid then { t with password := pyStrip m.text } else t) }
        ("Password saved for channel '"
          ++ (alGet s.channelPaths cid).getD ("channel_" ++ toString cid) ++ "'.") ++
      (startDownloadsForChannel env
        { s with
          downloadQueue := s.downloadQueue.map (fun t =>
            if t.id = cid then { t with password := pyStrip m.text } else t),
          awaitingPasswordChannelId := none }
        cid ((alGet s.channelPaths cid).getD ("channel_" ++ toString cid))).2 ∧
    ((∀ t ∈ s.downloadQueue, t.id ≠ cid) →
      s.downloadQueue.map (fun t =>
        if t.id = cid then { t with password := pyStrip m.text } else t) =
        s.downloadQueue) := by
  refine ⟨?_, ?_, ?_⟩
  · rcases horig with ⟨hor, hpriv, hfrom⟩ | ⟨hor, hchan, hto⟩
    · simp [onCmdUserTextMessage, if_neg hme, haw, hor, hfrom, hpriv, hskip]
    · simp [onCmdUserTextMessage, if_neg hme, haw, hor, hchan, hto, hskip]
  · rcases horig with ⟨hor, hpriv, hfrom⟩ | ⟨hor, hchan, hto⟩
    · simp [onCmdUserTextMessage, if_neg hme, haw, hor, hfrom, hpriv, hskip]
    · simp [onCmdUserTextMessage, if_neg hme, haw, hor, hchan, hto, hskip]
  · intro hnone
    conv_rhs => rw [← List.map_id s.downloadQueue]
    apply List.map_congr_left
    intro t ht
    simp [hnone t ht]

/-- C5 witness: the amended statement at the concrete popped-task state. -/
theorem c5_witness :
    (onCmdUserTextMessage envA stC5 msgC5).1 =
      (startDownloadsForChannel envA
        { stC5 with
          downloadQueue := stC5.downloadQueue.map (fun t =>
            if t.id = 5 then { t with password := pyStrip msgC5.text } else t),
          awaitingPasswordChannelId := none }
        5 ((alGet stC5.channelPaths 5).getD ("channel_" ++ toString (5 : Int)))).1 ∧
    stC5.downloadQueue.map (fun t =>
        if t.id = 5 then { t with password := pyStrip msgC5.text } else t) =
      stC5.downloadQueue := by
  have h := c5_password_reply_amended envA stC5 msgC5 5 rfl (by decide)
    (Or.inl ⟨rfl, by decide, rfl⟩) (by decide)
  exact ⟨h.1, h.2.2 (by decide)⟩

/-! ## C7 -/

/-- C7 counterexample: a terminal event for abandoned channel 2 (expected,
uncompleted, but no longer current) emits a user-visible chat reply — the
channel-completion announcement — so the claim of no chat output fails;
it also bumps the global total, not only the channel's counters. -/
theorem c7_counterexample :
    stC7.currentChannelId ≠ some ftC7.channelID ∧
    alGet stC7.expectedDownloads (ftC7.channelID, ftC7.remoteFileName) = some "out/f" ∧
    (ftC7.channelID, ftC7.remoteFileName) ∉ stC7.completedDownloads ∧
    Out.chat (Target.user 1) "Finished downloading files from channel 'Ch'." ∈
      (onFileTransfer envA stC7 ftC7).2 ∧
    (onFileTransfer envA stC7 ftC7).1.totalCompletedFiles =
      stC7.totalCompletedFiles + 1 := by
  refine ⟨by decide, by decide, by decide, by decide, by decide⟩

/-- C7 amended: a terminal event for an expected, uncompleted key whose
channel is no longer current updates only the completed set, the global
total and that channel's completed count — queue, current channel,
password wait, expected mapping, pending counts, campaign flag, request
origin and every other channel's completed count are untouched, and the
orchestrator does not advance — but it may still emit chat notifications
(the running total and the channel-completion announcement). -/
theorem c7_stale_event_frame (env : Env) (s : BotState) (ft : FT) (lp : String) (d : Int)
    (hexp : alGet s.expectedDownloads (ft.channelID, ft.remoteFileName) = some lp)
    (hnew : (ft.channelID, ft.remoteFileName) ∉ s.completedDownloads)
    (hterm : ft.status = TStatus.finished ∨ ft.status = TStatus.error ∨
      ft.status = TStatus.closed)
    (hstale : s.currentChannelId ≠ some ft.channelID)
    (hd : d ≠ ft.channelID) :
    (onFileTransfer env s ft).1.downloadQueue = s.downloadQueue ∧
    (onFileTransfer env s ft).1.currentChannelId = s.currentChannelId ∧
    (onFileTransfer env s ft).1.awaitingPasswordChannelId = s.awaitingPasswordChannelId ∧
    (onFileTransfer env s ft).1.expectedDownloads = s.expectedDownloads ∧
    (onFileTransfer env s ft).1.channelPendingCounts = s.channelPendingCounts ∧
    (onFileTransfer env s ft).1.downloadsStarted = s.downloadsStarted ∧
    (onFileTransfer env s ft).1.requestOrigin = s.requestOrigin ∧
    (onFileTransfer env s ft).1.requestUserId = s.requestUserId ∧
    (onFileTransfer env s ft).1.requestChannelId = s.requestChannelId ∧
    (onFileTransfer env s ft).1.totalCompletedFiles = s.totalCompletedFiles + 1 ∧
    alGet (onFileTransfer env s ft).1.channelCompletedCounts d =
      alGet s.channelCompletedCounts d := by
  have hna : ¬ ft.status = TStatus.active := by
    rcases hterm with h | h | h <;> simp [h]
  have hres : (onFileTransfer env s ft).1 =
      recordCompletion s (ft.channelID, ft.remoteFileName) := by
    simp only [onFileTransfer, hexp, if_neg hna, if_neg hnew]
    split
    · split
      · rw [if_neg (show ¬ (recordCompletion s
            (ft.channelID, ft.remoteFileName)).currentChannelId = some ft.channelID
            from hstale)]
      · rfl
    · rfl
  rw [hres]
  refine ⟨rfl, rfl, rfl, rfl, rfl, rfl, rfl, rfl, rfl, rfl, ?_⟩
  exact alGet_alSet_ne _ _ _ _ hd

/-- C7 witness: the frame statement at the concrete stale event. -/
theorem c7_witness :
    (onFileTransfer envA stC7 ftC7).1.downloadQueue = stC7.downloadQueue ∧
    (onFileTransfer envA stC7 ftC7).1.currentChannelId = stC7.currentChannelId ∧
    (onFileTransfer envA stC7 ftC7).1.awaitingPasswordChannelId =
      stC7.awaitingPasswordChannelId ∧
    (onFileTransfer envA stC7 ftC7).1.expectedDownloads = stC7.expectedDownloads ∧
    (onFileTransfer envA stC7 ftC7).1.channelPendingCounts = stC7.channelPendingCounts ∧
    (onFileTransfer envA stC7 ftC7).1.downloadsStarted = stC7.downloadsStarted ∧
    (onFileTransfer envA stC7 ftC7).1.requestOrigin = stC7.requestOrigin ∧
    (onFileTransfer envA stC7 ftC7).1.requestUserId = stC7.requestUserId ∧
    (onFileTransfer envA stC7 ftC7).1.requestChannelId = stC7.requestChannelId ∧
    (onFileTransfer envA stC7 ftC7).1.totalCompletedFiles =
      stC7.totalCompletedFiles + 1 ∧
    alGet (onFileTransfer envA stC7 ftC7).1.channelCompletedCounts 0 =
      alGet stC7.channelCompletedCounts 0 :=
  c7_stale_event_frame envA stC7 ftC7 "out/f" 0 (by decide) (by decide)
    (Or.inl rfl) (by decide) (by decide)

/-- C10 witness: dropping the whitespace-only middle entry of a concrete
three-entry configuration changes nothing. -/
theorem c10_witness :
    pyStrip (ConfigEntry.mk "   " "pw").path = "" ∧
    manualLoop envC8 stC10 ([⟨"/good", "x"⟩] ++ ConfigEntry.mk "   " "pw" :: [⟨"/bad", "y"⟩]) =
      manualLoop envC8 stC10 ([⟨"/good", "x"⟩] ++ [⟨"/bad", "y"⟩]) :=
  ⟨by decide,
   c10_blank_entry_silently_dropped envC8 stC10 ⟨"   ", "pw"⟩ [⟨"/good", "x"⟩]
     [⟨"/bad", "y"⟩] (by decide)⟩

end TTD
